import Mathlib

/-!
# Maestro boundary layer (`maestrolib/Interface.cpp`)

A shallow embedding of the C boundary functions of the maestro library and
proofs about them.  The boundary functions are thin wrappers around
collaborators whose code lives in other files (`Maestro.h`, `Json.h`,
`Network.h`, `Simulator.h`, Boost.JSON); those collaborators are taken as
parameters (structures of functions over an abstract state), and every call
the boundary makes on them is recorded in a trace, so that "calls X before Y"
and "does not call X" are statements about the trace.

Conventions
* a pointer argument is an `Option`: `none` is the null pointer;
* `size_t`, `unsigned long` and `unsigned long long` are 64 bit wide (LP64);
  they are natural numbers, and a conversion is written out (`% 2 ^ 64`) where
  it can change the value;
* a C++ exception or a null dereference ends the call with a `Fault`.
-/

namespace MaestroLib

/-! ## Faults -/

/-- The ways a boundary call can end without returning. -/
inductive Fault where
  /-- `value::as_uint64()` (or another checked accessor) on a value of another
  kind: Boost.JSON throws. -/
  | jsonKindMismatch
  /-- `p->...` on a null `shared_ptr`. -/
  | nullDereference
  deriving DecidableEq

/-! ## Boost.JSON values -/

/-- The value kinds of `boost::json::value`.  A `double` carries its bit
pattern only: no function here looks inside it.  An object is its member list
in insertion order. -/
inductive JsonValue where
  | null
  | bool (b : Bool)
  | int64 (i : Int)
  | uint64 (n : Nat)
  | double (bits : Nat)
  | string (s : String)
  | array (elems : List JsonValue)
  | object (members : List (String × JsonValue))

namespace JsonValue

/-- The test `value::is_object()`. -/
def is_object : JsonValue → Bool
  | object _ => true
  | _ => false

/-- The test `value::is_number()`: true for the kinds int64, uint64 and double. -/
def is_number : JsonValue → Bool
  | int64 _ => true
  | uint64 _ => true
  | double _ => true
  | _ => false

/-- The test `value::is_int64()`. -/
def is_int64 : JsonValue → Bool
  | int64 _ => true
  | _ => false

/-- The checked accessor `value::as_int64()`: throws unless the kind is int64. -/
def as_int64 : JsonValue → Except Fault Int
  | int64 i => .ok i
  | _ => .error .jsonKindMismatch

/-- The checked accessor `value::as_uint64()`: throws unless the kind is
uint64 (so it throws for a double). -/
def as_uint64 : JsonValue → Except Fault Nat
  | uint64 n => .ok n
  | _ => .error .jsonKindMismatch

/-- The members of an object, and no members for any other kind (the callers
below test `is_object()` first). -/
def members : JsonValue → List (String × JsonValue)
  | object ms => ms
  | _ => []

end JsonValue

/-- The member list of a `boost::json::object`. -/
abbrev JsonObject := List (String × JsonValue)

namespace JsonObject

/-- The statement `o[key] = v` (`object::operator[]` followed by assignment):
the member with that key is overwritten in place, and when there is none a new
member is appended. -/
def assign : JsonObject → String → JsonValue → JsonObject
  | [], key, v => [(key, v)]
  | (k, w) :: rest, key, v =>
    if k = key then (key, v) :: rest else (k, w) :: assign rest key v

end JsonObject

/-! ## The shot count (Interface.cpp, lines 113-130) -/

/-- The conversion `(size_t)x` of a signed 64 bit value. -/
def sizeOfInt64 (i : Int) : Nat := (i % 2 ^ 64).toNat

/-- Lines 113-130 of `SimpleExecute`: `nrShots` starts at 1 and is replaced
when the configuration is an object with a member `shots` that
`is_number()`; the number is read with `as_int64()` when it `is_int64()` and
with `as_uint64()` otherwise, and converted to `size_t`.  The pair
`contains("shots")`, `at("shots")` is one lookup here. -/
def getNrShots (configJson : JsonValue) : Except Fault Nat :=
  if configJson.is_object then
    let configObject := configJson.members
    match configObject.lookup "shots" with
    | some number =>
      if number.is_number then
        if number.is_int64 then (number.as_int64).map sizeOfInt64
        else number.as_uint64
      else .ok 1
    | none => .ok 1
  else .ok 1

/-! ## Collaborators of `SimpleExecute` -/

/-- The outcome-to-count map returned by `RepeatedExecuteOnHost`
(a map keyed by `std::vector<bool>`), as the sequence of entries in the order
the range-for loop visits them. -/
abbrev ExecuteResults := List (List Bool × Nat)

/-- A call that `SimpleExecute` makes on the network (or, for
`simulatorClear`, on the simulator the network hands out). -/
inductive NetworkOp (C : Type) where
  /-- The call `network->GetSimulator()->Clear()`. -/
  | simulatorClear
  /-- The call `network->Configure(key, value)`. -/
  | configure (key value : String)
  /-- The call `network->CreateSimulator()`. -/
  | createSimulator
  /-- The call `network->RepeatedExecuteOnHost(circuit, host, nrShots)`. -/
  | repeatedExecuteOnHost (circuit : C) (host nrShots : Nat)
  deriving DecidableEq

/-- The part of the network interface (`Network.h`) that `SimpleExecute`
uses, over an abstract network state `N` and circuit type `C`.  Nothing is
assumed about what the operations do. -/
structure INetwork (N C : Type) where
  /-- Whether `network->GetSimulator()` is non-null. -/
  hasSimulator : N → Bool
  /-- The effect of `network->GetSimulator()->Clear()` on the network. -/
  simulatorClear : N → N
  /-- The effect of `network->Configure(key, value)`. -/
  Configure : String → String → N → N
  /-- The effect of `network->CreateSimulator()`. -/
  CreateSimulator : N → N
  /-- The call `network->RepeatedExecuteOnHost(circuit, host, nrShots)`. -/
  RepeatedExecuteOnHost : C → Nat → Nat → N → ExecuteResults × N

/-- The part of the library object (`Maestro.h`) that `SimpleExecute` uses:
the registry lookup, which yields a null pointer for an unknown handle. -/
structure Maestro (N : Type) where
  /-- The lookup `maestroInstance->GetSimpleSimulator(handle)`. -/
  GetSimpleSimulator : Nat → Option N

/-- The JSON services `SimpleExecute` uses: the static members of
`Json::JsonParserMaestro` (`Json.h`) and `boost::json::serialize`. -/
structure JsonServices (C : Type) where
  /-- The call `jsonParser.ParseCircuit(jsonCircuit)` (taken as total). -/
  ParseCircuit : String → C
  /-- The call `JsonParserMaestro<>::ParseString(jsonConfig)` (taken as total). -/
  ParseString : String → JsonValue
  /-- The call `JsonParserMaestro<>::GetConfigString(key, configJson)`. -/
  GetConfigString : String → JsonValue → String
  /-- The call `boost::json::serialize(response)`. -/
  serialize : JsonValue → String

/-! ## The response (Interface.cpp, lines 174-196) -/

/-- Lines 179-181: the key of one outcome, one character per bit in vector
order. -/
def bitsToString (bits : List Bool) : String :=
  bits.foldl (fun s bit => s ++ (if bit then "1" else "0")) ""

/-- Lines 175-184: the object `jsonResult` after the loop over the results. -/
def buildCounts (results : ExecuteResults) : JsonObject :=
  results.foldl
    (fun jsonResult result =>
      JsonObject.assign jsonResult (bitsToString result.1) (.uint64 result.2))
    []

/-- The character written for one bit. -/
def bitChar (bit : Bool) : Char := if bit then '1' else '0'

/-- The entry of `jsonResult` written for one entry of the results. -/
def countEntry (result : List Bool × Nat) : String × JsonValue :=
  (bitsToString result.1, .uint64 result.2)

/-- Lines 174-185: the object `response`. -/
def buildResponse (results : ExecuteResults) : JsonValue :=
  .object (JsonObject.assign [] "counts" (.object (buildCounts results)))

/-- Lines 187-194, and 564-567 of `GetConfiguration`: a fresh buffer of
`length + 1` characters holding the characters of `s` followed by NUL. -/
def copyToBuffer (s : String) : List Char :=
  s.data ++ [Char.ofNat 0]

/-! ## `SimpleExecute` (Interface.cpp, lines 82-197) -/

/-- The local state of `SimpleExecute` between line 132 and line 162. -/
structure Progress (N C : Type) where
  /-- The state of the object `network` points to. -/
  network : N
  /-- The calls made on it so far, oldest first. -/
  trace : List (NetworkOp C)
  /-- The local variable `configured`. -/
  configured : Bool

/-- One of the three blocks at lines 135-141, 144-150 and 153-159, for the
key `key` whose configured string is `value`. -/
def applyConfigKey {N C : Type} (net : INetwork N C) (key value : String)
    (p : Progress N C) : Progress N C :=
  if value = "" then p
  else
    let p1 : Progress N C :=
      if net.hasSimulator p.network then
        { p with network := net.simulatorClear p.network,
                 trace := p.trace ++ [NetworkOp.simulatorClear] }
      else p
    { network := net.Configure key value p1.network,
      trace := p1.trace ++ [NetworkOp.configure key value],
      configured := true }

/-- Lines 161-162: create a simulator when a key was applied or there is
none. -/
def ensureSimulator {N C : Type} (net : INetwork N C) (p : Progress N C) :
    Progress N C :=
  if p.configured || !net.hasSimulator p.network then
    { p with network := net.CreateSimulator p.network,
             trace := p.trace ++ [NetworkOp.createSimulator] }
  else p

/-- Lines 132-162: the three configuration blocks in source order, then
`CreateSimulator` when needed, starting from the network state `n0`. -/
def configureAndCreate {N C : Type} (json : JsonServices C) (net : INetwork N C)
    (configJson : JsonValue) (n0 : N) : Progress N C :=
  let p0 : Progress N C := ⟨n0, [], false⟩
  let p1 := applyConfigKey net "matrix_product_state_max_bond_dimension"
    (json.GetConfigString "matrix_product_state_max_bond_dimension" configJson) p0
  let p2 := applyConfigKey net "matrix_product_state_truncation_threshold"
    (json.GetConfigString "matrix_product_state_truncation_threshold" configJson) p1
  let p3 := applyConfigKey net "mps_sample_measure_algorithm"
    (json.GetConfigString "mps_sample_measure_algorithm" configJson) p2
  ensureSimulator net p3

/-- Line 166: `network->RepeatedExecuteOnHost(circuit, 0, nrShots)` on the
network as lines 132-162 left it; the results and the network afterwards. -/
def executeOnHost {N C : Type} (json : JsonServices C) (net : INetwork N C)
    (configJson : JsonValue) (circuit : C) (nrShots : Nat) (n0 : N) :
    ExecuteResults × N :=
  net.RepeatedExecuteOnHost circuit 0 nrShots
    (configureAndCreate json net configJson n0).network

/-- What a call of `SimpleExecute` did. -/
structure Execution (N C : Type) where
  /-- The calls made on the network, oldest first. -/
  trace : List (NetworkOp C)
  /-- The state of the network the handle refers to after the call (`none`
  when the call never looked it up or the lookup gave null). -/
  network : Option N
  /-- The returned buffer (`none` is the null pointer), or the fault that
  ended the call. -/
  result : Except Fault (Option (List Char))

/-- The boundary function `SimpleExecute(simpleSim, jsonCircuit, jsonConfig)`
with the global `maestroInstance`.

The order of the source is kept: the guard (line 84), the registry lookup
(87), the two parses (109, 116), the shot count (114-130), the three
configuration blocks (132-159), `CreateSimulator` (161-162),
`RepeatedExecuteOnHost` (166) and the response (174-196).  `network` is first
dereferenced at line 138, 147, 156 or 161, whichever is reached first; every
path from line 132 reaches one of them before any other effect, so a null
`network` faults right after the shot count is known.  The `const char*`
argument of `Configure` is recorded as the characters of the `std::string` it
points into. -/
def SimpleExecute {N C : Type} (json : JsonServices C) (net : INetwork N C)
    (maestroInstance : Option (Maestro N)) (simpleSim : Nat)
    (jsonCircuit jsonConfig : Option String) : Execution N C :=
  match maestroInstance, jsonCircuit, jsonConfig with
  | some maestro, some circuitText, some configText =>
    if simpleSim = 0 then ⟨[], none, .ok none⟩
    else
      let network := maestro.GetSimpleSimulator simpleSim
      let circuit := json.ParseCircuit circuitText
      let configJson := json.ParseString configText
      match getNrShots configJson with
      | .error fault => ⟨[], network, .error fault⟩
      | .ok nrShots =>
        match network with
        | none => ⟨[], none, .error .nullDereference⟩
        | some n0 =>
          let p := configureAndCreate json net configJson n0
          let run := executeOnHost json net configJson circuit nrShots n0
          let responseStr := json.serialize (buildResponse run.1)
          ⟨p.trace ++ [NetworkOp.repeatedExecuteOnHost circuit 0 nrShots],
            some run.2, .ok (some (copyToBuffer responseStr))⟩
  | _, _, _ => ⟨[], none, .ok none⟩

/-! ## Direct simulator access (Interface.cpp, lines 571-607 and 678-697) -/

/-- A call that a boundary function makes on the backend behind a simulator
reference. -/
inductive SimulatorOp where
  /-- The call `simulator->AllocateQubits(nrQubits)`. -/
  | allocateQubits (nrQubits : Nat)
  /-- The call `simulator->GetNumberOfQubits()`. -/
  | getNumberOfQubits
  /-- The call `simulator->Measure(qubitVector)`. -/
  | measure (qubits : List Nat)
  /-- The call `simulator->SampleCounts(qubitVector, shots)`. -/
  | sampleCounts (qubits : List Nat) (shots : Nat)
  deriving DecidableEq

/-- The part of the simulator interface (`Simulator.h`) used by the boundary
functions below, over an abstract backend state `S`.  Nothing is assumed about
what the operations do.  `SampleCounts` returns the entries of its
outcome-to-count map in the order the range-for loop visits them. -/
structure ISimulator (S : Type) where
  /-- The call `simulator->AllocateQubits(nrQubits)`. -/
  AllocateQubits : Nat → S → Nat × S
  /-- The call `simulator->GetNumberOfQubits()`. -/
  GetNumberOfQubits : S → Nat
  /-- The call `simulator->Measure(qubits)`. -/
  Measure : List Nat → S → Nat × S
  /-- The call `simulator->SampleCounts(qubits, shots)`. -/
  SampleCounts : List Nat → Nat → S → List (Nat × Nat) × S

/-- What a boundary call on a simulator reference did. -/
structure Call (S R : Type) where
  /-- The returned value. -/
  ret : R
  /-- The backend state behind the reference after the call (`none` for a
  null reference). -/
  sim : Option S
  /-- The calls made on the backend, oldest first. -/
  trace : List SimulatorOp

/-- The vector `qubitVector(qubits, qubits + nrQubits)`: the first `nrQubits`
elements of the caller's array. -/
def qubitVector (qubits : List Nat) (nrQubits : Nat) : List Nat :=
  qubits.take nrQubits

/-- The boundary function `AllocateQubits(sim, nrQubits)`, lines 571-579. -/
def AllocateQubits {S : Type} (backend : ISimulator S) (sim : Option S)
    (nrQubits : Nat) : Call S Nat :=
  match sim with
  | none => ⟨0, none, []⟩
  | some simulator =>
    if nrQubits = 0 then ⟨0, some simulator, []⟩
    else
      let res := backend.AllocateQubits nrQubits simulator
      ⟨res.1, some res.2, [SimulatorOp.allocateQubits nrQubits]⟩

/-- The boundary function `GetNumberOfQubits(sim)`, lines 581-588. -/
def GetNumberOfQubits {S : Type} (backend : ISimulator S) (sim : Option S) :
    Call S Nat :=
  match sim with
  | none => ⟨0, none, []⟩
  | some simulator =>
    ⟨backend.GetNumberOfQubits simulator, some simulator,
      [SimulatorOp.getNumberOfQubits]⟩

/-- The boundary function `Measure(sim, qubits, nrQubits)`, lines 599-607. -/
def Measure {S : Type} (backend : ISimulator S) (sim : Option S)
    (qubits : Option (List Nat)) (nrQubits : Nat) : Call S Nat :=
  match sim, qubits with
  | some simulator, some qs =>
    if nrQubits = 0 then ⟨0, some simulator, []⟩
    else
      let res := backend.Measure (qubitVector qs nrQubits) simulator
      ⟨res.1, some res.2, [SimulatorOp.measure (qubitVector qs nrQubits)]⟩
  | _, _ => ⟨0, sim, []⟩

/-- Lines 687-695 of `SampleCounts`: the buffer after the loop, two slots per
entry of the map, outcome first. -/
def fillCounts (counts : List (Nat × Nat)) : List Nat :=
  counts.foldl (fun result count => result ++ [count.1, count.2]) []

/-- The boundary function `SampleCounts(sim, qubits, nrQubits, shots)`, lines
678-697. -/
def SampleCounts {S : Type} (backend : ISimulator S) (sim : Option S)
    (qubits : Option (List Nat)) (nrQubits shots : Nat) :
    Call S (Option (List Nat)) :=
  match sim, qubits with
  | some simulator, some qs =>
    if nrQubits = 0 ∨ shots = 0 then ⟨none, some simulator, []⟩
    else
      let res := backend.SampleCounts (qubitVector qs nrQubits) shots simulator
      ⟨some (fillCounts res.1), some res.2,
        [SimulatorOp.sampleCounts (qubitVector qs nrQubits) shots]⟩
  | _, _ => ⟨none, sim, []⟩

/-! ## Small collaborators for running the definitions

The concrete networks, backends and the JSON parser are in other files of the
library.  The instances below are the simplest ones that satisfy the contracts
written in the specification; they are used to evaluate the boundary functions
on concrete inputs. -/

/-- A network state: whether a simulator exists, how often one was created,
and the settings applied. -/
structure DemoNetwork where
  /-- Whether `GetSimulator()` is non-null. -/
  simulator : Bool
  /-- The number of simulators created so far. -/
  created : Nat
  /-- The settings applied with `Configure`, newest first. -/
  settings : List (String × String)
  deriving DecidableEq

/-- Modelled from the spec: a network implementation (`Network.h` is not among
the sources).  `CreateSimulator` makes a simulator exist, `Configure` stores
the setting, and repeated execution returns counts that sum to the number of
shots (section 4.6, step 5): here the shots are split between the outcomes
`00` and `11`. -/
def demoNetwork : INetwork DemoNetwork String where
  hasSimulator n := n.simulator
  simulatorClear n := n
  Configure key value n := { n with settings := (key, value) :: n.settings }
  CreateSimulator n := { n with simulator := true, created := n.created + 1 }
  RepeatedExecuteOnHost _ _ nrShots n :=
    ([([false, false], nrShots / 2), ([true, true], nrShots - nrShots / 2)], n)

/-- Modelled from the spec: the registry lookup of `Maestro.h` (not among the
sources), for a registry whose only live simple simulator has handle 1: "null
handle or unknown handle returns null" (section 4.2). -/
def demoMaestro (n : DemoNetwork) : Maestro DemoNetwork where
  GetSimpleSimulator handle := if handle = 1 then some n else none

/-- Modelled from the spec: `JsonParserMaestro::GetConfigString` (`Json.h` is
not among the sources).  The backend keys are string-encoded members of the
configuration object (section 6): the string stored under the key, and the
empty string when the configuration is not an object, the key is absent or its
value is not a string. -/
def demoGetConfigString (key : String) (configJson : JsonValue) : String :=
  match configJson.members.lookup key with
  | some (.string s) => s
  | _ => ""

/-- The configuration text with five shots. -/
def configFiveShots : String := "\x7b\"shots\": 5\x7d"

/-- The configuration text with a negative shot count. -/
def configNegativeShots : String := "\x7b\"shots\": -5\x7d"

/-- The configuration text with a fractional shot count. -/
def configFractionalShots : String := "\x7b\"shots\": 2.5\x7d"

/-- The configuration text with five shots and a sampling algorithm. -/
def configSample : String :=
  "\x7b\"shots\": 5, \"mps_sample_measure_algorithm\": \"mps_probabilities\"\x7d"

/-- The text `configSample` with its members in another order and a member
`note` that is not a recognised key. -/
def configSampleNote : String :=
  "\x7b\"note\": \"x\", \"mps_sample_measure_algorithm\": \"mps_probabilities\","
    ++ " \"shots\": 5\x7d"

/-- The text `configSample` with the fractional shot count 2.5. -/
def configFractionalSample : String :=
  "\x7b\"shots\": 2.5, \"mps_sample_measure_algorithm\": \"mps_probabilities\"\x7d"

/-- The circuit text used in the examples: no instructions, two qubits. -/
def demoCircuit : String :=
  "\x7b\"instructions\": [], \"num_qubits\": 2, \"num_clbits\": 2\x7d"

/-- The parse of the configuration texts used in the examples; every other
text is taken as `null` here. -/
def demoParseString (text : String) : JsonValue :=
  if text = configFiveShots then .object [("shots", .int64 5)]
  else if text = configNegativeShots then .object [("shots", .int64 (-5))]
  else if text = configFractionalShots then
    .object [("shots", .double 0x4004000000000000)]
  else if text = configSample then
    .object [("shots", .int64 5), ("mps_sample_measure_algorithm", .string "mps_probabilities")]
  else if text = configSampleNote then
    .object [("note", .string "x"), ("mps_sample_measure_algorithm", .string "mps_probabilities"),
      ("shots", .int64 5)]
  else if text = configFractionalSample then
    .object [("shots", .double 0x4004000000000000),
      ("mps_sample_measure_algorithm", .string "mps_probabilities")]
  else .null

mutual
/-- A compact JSON writer for the examples, in the format of
`boost::json::serialize` for the kinds a response contains (objects, strings
without escapes, unsigned integers); a double is written as its bit pattern. -/
def demoSerialize : JsonValue → String
  | .null => "null"
  | .bool b => if b then "true" else "false"
  | .int64 i => toString i
  | .uint64 n => toString n
  | .double bits => toString bits
  | .string s => "\"" ++ s ++ "\""
  | .array elems => "[" ++ demoSerializeElems elems ++ "]"
  | .object members => "\x7b" ++ demoSerializeMembers members ++ "\x7d"
/-- The elements of an array, separated by commas. -/
def demoSerializeElems : List JsonValue → String
  | [] => ""
  | [v] => demoSerialize v
  | v :: rest => demoSerialize v ++ "," ++ demoSerializeElems rest
/-- The members of an object, separated by commas. -/
def demoSerializeMembers : List (String × JsonValue) → String
  | [] => ""
  | [(k, v)] => "\"" ++ k ++ "\":" ++ demoSerialize v
  | (k, v) :: rest =>
    "\"" ++ k ++ "\":" ++ demoSerialize v ++ "," ++ demoSerializeMembers rest
end

/-- JSON services for the examples: circuits stay text, and the known
configuration texts are parsed by `demoParseString`. -/
def demoJson : JsonServices String where
  ParseCircuit text := text
  ParseString := demoParseString
  GetConfigString := demoGetConfigString
  serialize := demoSerialize

/-- The state of a backend in the examples: its qubit count. -/
structure DemoSimulator where
  /-- The current number of qubits. -/
  nrQubits : Nat
  deriving DecidableEq

/-- Modelled from the spec: a backend (`Simulator.h` and the backends are not
among the sources).  `AllocateQubits` grows the capacity and returns the new
total (section 4.1); `SampleCounts` returns counts that sum to `shots`, split
between the outcomes 0 and 3; `Measure` reports outcome 0. -/
def demoSimulator : ISimulator DemoSimulator where
  AllocateQubits n s := (s.nrQubits + n, { nrQubits := s.nrQubits + n })
  GetNumberOfQubits s := s.nrQubits
  Measure _ s := (0, s)
  SampleCounts _ shots s := ([(0, shots / 2), (3, shots - shots / 2)], s)

/-! ## The simulator calls that return a status (Interface.cpp, lines 227-617 and 715-767) -/

/-- A `double` argument, as its bit pattern: the boundary passes it on
unread. -/
abbrev DoubleBits := Nat

/-- A call of a backend method that returns nothing, with the arguments the
boundary passes. -/
inductive SimulatorMethod where
  | ApplyX (qubit : Int)
  | ApplyY (qubit : Int)
  | ApplyZ (qubit : Int)
  | ApplyH (qubit : Int)
  | ApplyS (qubit : Int)
  | ApplySDG (qubit : Int)
  | ApplyT (qubit : Int)
  | ApplyTDG (qubit : Int)
  | ApplySx (qubit : Int)
  | ApplySxDAG (qubit : Int)
  | ApplyK (qubit : Int)
  | ApplyP (qubit : Int) (theta : DoubleBits)
  | ApplyRx (qubit : Int) (theta : DoubleBits)
  | ApplyRy (qubit : Int) (theta : DoubleBits)
  | ApplyRz (qubit : Int) (theta : DoubleBits)
  | ApplyU (qubit : Int) (theta phi lambda gamma : DoubleBits)
  | ApplyCX (controlQubit targetQubit : Int)
  | ApplyCY (controlQubit targetQubit : Int)
  | ApplyCZ (controlQubit targetQubit : Int)
  | ApplyCH (controlQubit targetQubit : Int)
  | ApplyCSx (controlQubit targetQubit : Int)
  | ApplyCSxDAG (controlQubit targetQubit : Int)
  | ApplyCP (controlQubit targetQubit : Int) (theta : DoubleBits)
  | ApplyCRx (controlQubit targetQubit : Int) (theta : DoubleBits)
  | ApplyCRy (controlQubit targetQubit : Int) (theta : DoubleBits)
  | ApplyCRz (controlQubit targetQubit : Int) (theta : DoubleBits)
  | ApplyCCX (controlQubit1 controlQubit2 targetQubit : Int)
  | ApplySwap (qubit1 qubit2 : Int)
  | ApplyCSwap (controlQubit qubit1 qubit2 : Int)
  | ApplyCU (controlQubit targetQubit : Int) (theta phi lambda gamma : DoubleBits)
  | Initialize
  | Reset
  | Configure (key value : String)
  | Clear
  | Flush
  | SaveStateToInternalDestructive
  | RestoreInternalDestructiveSavedState
  | SaveState
  | RestoreState
  | SetMultithreading (multithreading : Bool)
  | ApplyReset (qubits : List Nat)
  deriving DecidableEq

/-- The simulator interface with, besides the four operations of
`ISimulator`, the methods that return nothing (by their effect on the backend
state) and the configuration query.  Nothing is assumed about what they do. -/
structure ISimulatorMethods (S : Type) extends ISimulator S where
  /-- The effect of a method that returns nothing. -/
  perform : SimulatorMethod → S → S
  /-- The call `simulator->GetConfiguration(key)`. -/
  GetConfiguration : String → S → String

/-- What a status-returning boundary call on a simulator reference did. -/
structure Forwarded (S : Type) where
  /-- The returned `int`: 0 or 1. -/
  ret : Int
  /-- The backend state behind the reference after the call (`none` for a
  null reference). -/
  sim : Option S
  /-- The calls made on the backend, oldest first. -/
  trace : List SimulatorMethod

/-- The body shared by the boundary functions of this section:
`if (!sim) return 0;`, then the one backend call, then `return 1;`. -/
def forward {S : Type} (backend : ISimulatorMethods S) (sim : Option S)
    (method : SimulatorMethod) : Forwarded S :=
  match sim with
  | none => ⟨0, none, []⟩
  | some simulator => ⟨1, some (backend.perform method simulator), [method]⟩

/-- The boundary function `ApplyX(sim, qubit)`, lines 227-236. -/
def ApplyX {S : Type} (backend : ISimulatorMethods S) (sim : Option S)
    (qubit : Int) : Forwarded S :=
  forward backend sim (.ApplyX qubit)

/-- The boundary function `ApplyY(sim, qubit)`, lines 238-246. -/
def ApplyY {S : Type} (backend : ISimulatorMethods S) (sim : Option S)
    (qubit : Int) : Forwarded S :=
  forward backend sim (.ApplyY qubit)

/-- The boundary function `ApplyZ(sim, qubit)`, lines 248-256. -/
def ApplyZ {S : Type} (backend : ISimulatorMethods S) (sim : Option S)
    (qubit : Int) : Forwarded S :=
  forward backend sim (.ApplyZ qubit)

/-- The boundary function `ApplyH(sim, qubit)`, lines 258-266. -/
def ApplyH {S : Type} (backend : ISimulatorMethods S) (sim : Option S)
    (qubit : Int) : Forwarded S :=
  forward backend sim (.ApplyH qubit)

/-- The boundary function `ApplyS(sim, qubit)`, lines 268-276. -/
def ApplyS {S : Type} (backend : ISimulatorMethods S) (sim : Option S)
    (qubit : Int) : Forwarded S :=
  forward backend sim (.ApplyS qubit)

/-- The boundary function `ApplySDG(sim, qubit)`, lines 278-286. -/
def ApplySDG {S : Type} (backend : ISimulatorMethods S) (sim : Option S)
    (qubit : Int) : Forwarded S :=
  forward backend sim (.ApplySDG qubit)

/-- The boundary function `ApplyT(sim, qubit)`, lines 288-296. -/
def ApplyT {S : Type} (backend : ISimulatorMethods S) (sim : Option S)
    (qubit : Int) : Forwarded S :=
  forward backend sim (.ApplyT qubit)

/-- The boundary function `ApplyTDG(sim, qubit)`, lines 298-306. -/
def ApplyTDG {S : Type} (backend : ISimulatorMethods S) (sim : Option S)
    (qubit : Int) : Forwarded S :=
  forward backend sim (.ApplyTDG qubit)

/-- The boundary function `ApplySX(sim, qubit)`, lines 308-316; the backend
method is `ApplySx`. -/
def ApplySX {S : Type} (backend : ISimulatorMethods S) (sim : Option S)
    (qubit : Int) : Forwarded S :=
  forward backend sim (.ApplySx qubit)

/-- The boundary function `ApplySXDG(sim, qubit)`, lines 318-326; the backend
method is `ApplySxDAG`. -/
def ApplySXDG {S : Type} (backend : ISimulatorMethods S) (sim : Option S)
    (qubit : Int) : Forwarded S :=
  forward backend sim (.ApplySxDAG qubit)

/-- The boundary function `ApplyK(sim, qubit)`, lines 328-336. -/
def ApplyK {S : Type} (backend : ISimulatorMethods S) (sim : Option S)
    (qubit : Int) : Forwarded S :=
  forward backend sim (.ApplyK qubit)

/-- The boundary function `ApplyP(sim, qubit, theta)`, lines 338-346. -/
def ApplyP {S : Type} (backend : ISimulatorMethods S) (sim : Option S)
    (qubit : Int) (theta : DoubleBits) : Forwarded S :=
  forward backend sim (.ApplyP qubit theta)

/-- The boundary function `ApplyRx(sim, qubit, theta)`, lines 348-356. -/
def ApplyRx {S : Type} (backend : ISimulatorMethods S) (sim : Option S)
    (qubit : Int) (theta : DoubleBits) : Forwarded S :=
  forward backend sim (.ApplyRx qubit theta)

/-- The boundary function `ApplyRy(sim, qubit, theta)`, lines 358-366. -/
def ApplyRy {S : Type} (backend : ISimulatorMethods S) (sim : Option S)
    (qubit : Int) (theta : DoubleBits) : Forwarded S :=
  forward backend sim (.ApplyRy qubit theta)

/-- The boundary function `ApplyRz(sim, qubit, theta)`, lines 368-376. -/
def ApplyRz {S : Type} (backend : ISimulatorMethods S) (sim : Option S)
    (qubit : Int) (theta : DoubleBits) : Forwarded S :=
  forward backend sim (.ApplyRz qubit theta)

/-- The boundary function `ApplyU(sim, qubit, theta, phi, lambda, gamma)`,
lines 378-386. -/
def ApplyU {S : Type} (backend : ISimulatorMethods S) (sim : Option S)
    (qubit : Int) (theta phi lambda gamma : DoubleBits) : Forwarded S :=
  forward backend sim (.ApplyU qubit theta phi lambda gamma)

/-- The boundary function `ApplyCX(sim, controlQubit, targetQubit)`, lines
388-396. -/
def ApplyCX {S : Type} (backend : ISimulatorMethods S) (sim : Option S)
    (controlQubit targetQubit : Int) : Forwarded S :=
  forward backend sim (.ApplyCX controlQubit targetQubit)

/-- The boundary function `ApplyCY(sim, controlQubit, targetQubit)`, lines
398-406. -/
def ApplyCY {S : Type} (backend : ISimulatorMethods S) (sim : Option S)
    (controlQubit targetQubit : Int) : Forwarded S :=
  forward backend sim (.ApplyCY controlQubit targetQubit)

/-- The boundary function `ApplyCZ(sim, controlQubit, targetQubit)`, lines
408-416. -/
def ApplyCZ {S : Type} (backend : ISimulatorMethods S) (sim : Option S)
    (controlQubit targetQubit : Int) : Forwarded S :=
  forward backend sim (.ApplyCZ controlQubit targetQubit)

/-- The boundary function `ApplyCH(sim, controlQubit, targetQubit)`, lines
418-426. -/
def ApplyCH {S : Type} (backend : ISimulatorMethods S) (sim : Option S)
    (controlQubit targetQubit : Int) : Forwarded S :=
  forward backend sim (.ApplyCH controlQubit targetQubit)

/-- The boundary function `ApplyCSX(sim, controlQubit, targetQubit)`, lines
428-436; the backend method is `ApplyCSx`. -/
def ApplyCSX {S : Type} (backend : ISimulatorMethods S) (sim : Option S)
    (controlQubit targetQubit : Int) : Forwarded S :=
  forward backend sim (.ApplyCSx controlQubit targetQubit)

/-- The boundary function `ApplyCSXDG(sim, controlQubit, targetQubit)`, lines
438-446; the backend method is `ApplyCSxDAG`. -/
def ApplyCSXDG {S : Type} (backend : ISimulatorMethods S) (sim : Option S)
    (controlQubit targetQubit : Int) : Forwarded S :=
  forward backend sim (.ApplyCSxDAG controlQubit targetQubit)

/-- The boundary function `ApplyCP(sim, controlQubit, targetQubit, theta)`,
lines 448-456. -/
def ApplyCP {S : Type} (backend : ISimulatorMethods S) (sim : Option S)
    (controlQubit targetQubit : Int) (theta : DoubleBits) : Forwarded S :=
  forward backend sim (.ApplyCP controlQubit targetQubit theta)

/-- The boundary function `ApplyCRx(sim, controlQubit, targetQubit, theta)`,
lines 458-466. -/
def ApplyCRx {S : Type} (backend : ISimulatorMethods S) (sim : Option S)
    (controlQubit targetQubit : Int) (theta : DoubleBits) : Forwarded S :=
  forward backend sim (.ApplyCRx controlQubit targetQubit theta)

/-- The boundary function `ApplyCRy(sim, controlQubit, targetQubit, theta)`,
lines 468-476. -/
def ApplyCRy {S : Type} (backend : ISimulatorMethods S) (sim : Option S)
    (controlQubit targetQubit : Int) (theta : DoubleBits) : Forwarded S :=
  forward backend sim (.ApplyCRy controlQubit targetQubit theta)

/-- The boundary function `ApplyCRz(sim, controlQubit, targetQubit, theta)`,
lines 478-486. -/
def ApplyCRz {S : Type} (backend : ISimulatorMethods S) (sim : Option S)
    (controlQubit targetQubit : Int) (theta : DoubleBits) : Forwarded S :=
  forward backend sim (.ApplyCRz controlQubit targetQubit theta)

/-- The boundary function `ApplyCCX(sim, controlQubit1, controlQubit2,
targetQubit)`, lines 488-496. -/
def ApplyCCX {S : Type} (backend : ISimulatorMethods S) (sim : Option S)
    (controlQubit1 controlQubit2 targetQubit : Int) : Forwarded S :=
  forward backend sim (.ApplyCCX controlQubit1 controlQubit2 targetQubit)

/-- The boundary function `ApplySwap(sim, qubit1, qubit2)`, lines 498-506. -/
def ApplySwap {S : Type} (backend : ISimulatorMethods S) (sim : Option S)
    (qubit1 qubit2 : Int) : Forwarded S :=
  forward backend sim (.ApplySwap qubit1 qubit2)

/-- The boundary function `ApplyCSwap(sim, controlQubit, qubit1, qubit2)`,
lines 508-516. -/
def ApplyCSwap {S : Type} (backend : ISimulatorMethods S) (sim : Option S)
    (controlQubit qubit1 qubit2 : Int) : Forwarded S :=
  forward backend sim (.ApplyCSwap controlQubit qubit1 qubit2)

/-- The boundary function `ApplyCU(sim, controlQubit, targetQubit, theta, phi,
lambda, gamma)`, lines 518-526. -/
def ApplyCU {S : Type} (backend : ISimulatorMethods S) (sim : Option S)
    (controlQubit targetQubit : Int) (theta phi lambda gamma : DoubleBits) :
    Forwarded S :=
  forward backend sim (.ApplyCU controlQubit targetQubit theta phi lambda gamma)

/-- The boundary function `InitializeSimulator(sim)`, lines 528-535. -/
def InitializeSimulator {S : Type} (backend : ISimulatorMethods S)
    (sim : Option S) : Forwarded S :=
  forward backend sim .Initialize

/-- The boundary function `ResetSimulator(sim)`, lines 537-544. -/
def ResetSimulator {S : Type} (backend : ISimulatorMethods S)
    (sim : Option S) : Forwarded S :=
  forward backend sim .Reset

/-- The boundary function `ConfigureSimulator(sim, key, value)`, lines
546-553: the guard also tests `key` and `value`. -/
def ConfigureSimulator {S : Type} (backend : ISimulatorMethods S)
    (sim : Option S) (key value : Option String) : Forwarded S :=
  match sim, key, value with
  | some simulator, some k, some v =>
    ⟨1, some (backend.perform (.Configure k v) simulator), [.Configure k v]⟩
  | _, _, _ => ⟨0, sim, []⟩

/-- The boundary function `ClearSimulator(sim)`, lines 590-597. -/
def ClearSimulator {S : Type} (backend : ISimulatorMethods S)
    (sim : Option S) : Forwarded S :=
  forward backend sim .Clear

/-- The boundary function `ApplyReset(sim, qubits, nrQubits)`, lines 609-617:
the guard also tests `qubits` and `nrQubits`. -/
def ApplyReset {S : Type} (backend : ISimulatorMethods S) (sim : Option S)
    (qubits : Option (List Nat)) (nrQubits : Nat) : Forwarded S :=
  match sim, qubits with
  | some simulator, some qs =>
    if nrQubits = 0 then ⟨0, some simulator, []⟩
    else
      ⟨1, some (backend.perform (.ApplyReset (qubitVector qs nrQubits)) simulator),
        [.ApplyReset (qubitVector qs nrQubits)]⟩
  | _, _ => ⟨0, sim, []⟩

/-- The boundary function `FlushSimulator(sim)`, lines 715-722. -/
def FlushSimulator {S : Type} (backend : ISimulatorMethods S)
    (sim : Option S) : Forwarded S :=
  forward backend sim .Flush

/-- The boundary function `SaveStateToInternalDestructive(sim)`, lines
724-731. -/
def SaveStateToInternalDestructive {S : Type} (backend : ISimulatorMethods S)
    (sim : Option S) : Forwarded S :=
  forward backend sim .SaveStateToInternalDestructive

/-- The boundary function `RestoreInternalDestructiveSavedState(sim)`, lines
733-740. -/
def RestoreInternalDestructiveSavedState {S : Type}
    (backend : ISimulatorMethods S) (sim : Option S) : Forwarded S :=
  forward backend sim .RestoreInternalDestructiveSavedState

/-- The boundary function `SaveState(sim)`, lines 742-749. -/
def SaveState {S : Type} (backend : ISimulatorMethods S)
    (sim : Option S) : Forwarded S :=
  forward backend sim .SaveState

/-- The boundary function `RestoreState(sim)`, lines 751-758. -/
def RestoreState {S : Type} (backend : ISimulatorMethods S)
    (sim : Option S) : Forwarded S :=
  forward backend sim .RestoreState

/-- The boundary function `SetMultithreading(sim, multithreading)`, lines
760-767: the backend receives `multithreading != 0`. -/
def SetMultithreading {S : Type} (backend : ISimulatorMethods S)
    (sim : Option S) (multithreading : Int) : Forwarded S :=
  forward backend sim (.SetMultithreading (decide (multithreading ≠ 0)))

/-- The boundary function `GetConfiguration(sim, key)`, lines 555-569: the
returned buffer, `none` for the null pointer.  The query does not change the
backend. -/
def GetConfiguration {S : Type} (backend : ISimulatorMethods S)
    (sim : Option S) (key : Option String) : Option (List Char) :=
  match sim, key with
  | some simulator, some k =>
    let value := backend.GetConfiguration k simulator
    if value = "" then none else some (copyToBuffer value)
  | _, _ => none

/-! ## The handle calls (Interface.cpp, lines 50-80 and 205-225) -/

/-- A call of a method of the library object, with the arguments the boundary
passes (the two `static_cast`s to the enumerations keep the integer). -/
inductive RegistryOp where
  | CreateSimpleSimulator (nrQubits : Int)
  | DestroySimpleSimulator (simHandle : Nat)
  | RemoveAllOptimizationSimulatorsAndAdd (simHandle : Nat) (simType simExecType : Int)
  | AddOptimizationSimulator (simHandle : Nat) (simType simExecType : Int)
  | CreateSimulator (simType simExecType : Int)
  | DestroySimulator (simHandle : Nat)
  deriving DecidableEq

/-- The methods of the library object (`Maestro.h`) behind the handle calls,
over an abstract state `M` of that object.  Nothing is assumed about what they
do. -/
structure MaestroMethods (M : Type) where
  /-- The call `maestroInstance->CreateSimpleSimulator(nrQubits)`. -/
  CreateSimpleSimulator : Int → M → Nat × M
  /-- The call `maestroInstance->DestroySimpleSimulator(simHandle)`. -/
  DestroySimpleSimulator : Nat → M → M
  /-- The call `maestroInstance->RemoveAllOptimizationSimulatorsAndAdd(...)`. -/
  RemoveAllOptimizationSimulatorsAndAdd : Nat → Int → Int → M → Int × M
  /-- The call `maestroInstance->AddOptimizationSimulator(...)`. -/
  AddOptimizationSimulator : Nat → Int → Int → M → Int × M
  /-- The call `maestroInstance->CreateSimulator(simType, simExecType)`. -/
  CreateSimulator : Int → Int → M → Nat × M
  /-- The call `maestroInstance->DestroySimulator(simHandle)`. -/
  DestroySimulator : Nat → M → M

/-- What a handle call did. -/
structure HandleCall (M R : Type) where
  /-- The returned value. -/
  ret : R
  /-- The state of the library object after the call (`none` when
  `maestroInstance` is null). -/
  maestro : Option M
  /-- The calls made on the library object, oldest first. -/
  trace : List RegistryOp

/-- The boundary function `CreateSimpleSimulator(nrQubits)`, lines 50-56. -/
def CreateSimpleSimulator {M : Type} (lib : MaestroMethods M)
    (maestroInstance : Option M) (nrQubits : Int) : HandleCall M Nat :=
  match maestroInstance with
  | none => ⟨0, none, []⟩
  | some maestro =>
    let res := lib.CreateSimpleSimulator nrQubits maestro
    ⟨res.1, some res.2, [.CreateSimpleSimulator nrQubits]⟩

/-- The boundary function `DestroySimpleSimulator(simHandle)`, lines 58-64. -/
def DestroySimpleSimulator {M : Type} (lib : MaestroMethods M)
    (maestroInstance : Option M) (simHandle : Nat) : HandleCall M Unit :=
  match maestroInstance with
  | none => ⟨(), none, []⟩
  | some maestro =>
    if simHandle = 0 then ⟨(), some maestro, []⟩
    else
      ⟨(), some (lib.DestroySimpleSimulator simHandle maestro),
        [.DestroySimpleSimulator simHandle]⟩

/-- The boundary function `RemoveAllOptimizationSimulatorsAndAdd(simHandle,
simType, simExecType)`, lines 66-72. -/
def RemoveAllOptimizationSimulatorsAndAdd {M : Type} (lib : MaestroMethods M)
    (maestroInstance : Option M) (simHandle : Nat) (simType simExecType : Int) :
    HandleCall M Int :=
  match maestroInstance with
  | none => ⟨0, none, []⟩
  | some maestro =>
    if simHandle = 0 then ⟨0, some maestro, []⟩
    else
      let res := lib.RemoveAllOptimizationSimulatorsAndAdd simHandle simType simExecType
        maestro
      ⟨res.1, some res.2,
        [.RemoveAllOptimizationSimulatorsAndAdd simHandle simType simExecType]⟩

/-- The boundary function `AddOptimizationSimulator(simHandle, simType,
simExecType)`, lines 74-80. -/
def AddOptimizationSimulator {M : Type} (lib : MaestroMethods M)
    (maestroInstance : Option M) (simHandle : Nat) (simType simExecType : Int) :
    HandleCall M Int :=
  match maestroInstance with
  | none => ⟨0, none, []⟩
  | some maestro =>
    if simHandle = 0 then ⟨0, some maestro, []⟩
    else
      let res := lib.AddOptimizationSimulator simHandle simType simExecType maestro
      ⟨res.1, some res.2, [.AddOptimizationSimulator simHandle simType simExecType]⟩

/-- The boundary function `CreateSimulator(simType, simExecType)`, lines
205-211. -/
def CreateSimulator {M : Type} (lib : MaestroMethods M)
    (maestroInstance : Option M) (simType simExecType : Int) : HandleCall M Nat :=
  match maestroInstance with
  | none => ⟨0, none, []⟩
  | some maestro =>
    let res := lib.CreateSimulator simType simExecType maestro
    ⟨res.1, some res.2, [.CreateSimulator simType simExecType]⟩

/-- The boundary function `DestroySimulator(simHandle)`, lines 220-225. -/
def DestroySimulator {M : Type} (lib : MaestroMethods M)
    (maestroInstance : Option M) (simHandle : Nat) : HandleCall M Unit :=
  match maestroInstance with
  | none => ⟨(), none, []⟩
  | some maestro =>
    if simHandle = 0 then ⟨(), some maestro, []⟩
    else
      ⟨(), some (lib.DestroySimulator simHandle maestro), [.DestroySimulator simHandle]⟩

/-! ## `GetMaestroObject` (Interface.cpp, lines 28-47) -/

/-- The steps of the one-time initialisation. -/
inductive InitOp where
  /-- The call `SimulatorsFactory::InitGpuLibrary()`, compiled in under
  `__linux__`. -/
  | InitGpuLibrary
  /-- The call `ExecutionEstimator<>::InitializeRegressors()`, compiled in
  under `COMPOSER`. -/
  | InitializeRegressors
  /-- The construction `std::make_unique<Maestro>()`. -/
  | makeMaestro
  deriving DecidableEq

/-- The two preprocessor symbols `GetMaestroObject` depends on. -/
structure Build where
  /-- Whether `__linux__` is defined. -/
  linux : Bool
  /-- Whether `COMPOSER` is defined. -/
  composer : Bool

/-- The two statics of lines 28-29, over the type `P` of pointers to the
library object. -/
structure Globals (P : Type) where
  /-- The flag `isInitialized`. -/
  isInitialized : Bool
  /-- The pointer `maestroInstance` (`none` is null). -/
  maestroInstance : Option P
  deriving DecidableEq

/-- The statics as their initialisers leave them: `false` and `nullptr`. -/
def Globals.initial {P : Type} : Globals P := ⟨false, none⟩

/-- What a call of `GetMaestroObject` did. -/
structure ObjectCall (P : Type) where
  /-- The returned pointer. -/
  ret : Option P
  /-- The statics after the call. -/
  globals : Globals P
  /-- The initialisation steps run by the call, oldest first. -/
  trace : List InitOp
  deriving DecidableEq

/-- The boundary function `GetMaestroObject()`, lines 31-47, run
sequentially.  `fresh` is the object `make_unique` would construct in this
call; the two library initialisers and the constructor are taken to return.
`exchange(true)` leaves the flag set in both branches. -/
def GetMaestroObject {P : Type} (build : Build) (fresh : P) (g : Globals P) :
    ObjectCall P :=
  if !g.isInitialized then
    ⟨some fresh, ⟨true, some fresh⟩,
      (if build.linux then [InitOp.InitGpuLibrary] else [])
        ++ (if build.composer then [InitOp.InitializeRegressors] else [])
        ++ [InitOp.makeMaestro]⟩
  else ⟨g.maestroInstance, ⟨true, g.maestroInstance⟩, []⟩

/-- A sequence of calls of `GetMaestroObject`, one per element of `fresh`,
each on the statics the previous call left. -/
def GetMaestroObjectCalls {P : Type} (build : Build) :
    List P → Globals P → List (ObjectCall P)
  | [], _ => []
  | fresh :: rest, g =>
    GetMaestroObject build fresh g
      :: GetMaestroObjectCalls build rest (GetMaestroObject build fresh g).globals

/-- Modelled from the spec: a backend with the methods that return nothing and
the configuration query (`Simulator.h` and the backends are not among the
sources).  The methods leave the qubit count as it is, and the only option the
backend reports is `method` (section 4.1: unknown keys are accepted). -/
def demoSimulatorMethods : ISimulatorMethods DemoSimulator where
  toISimulator := demoSimulator
  perform _ s := s
  GetConfiguration key _ := if key = "method" then "statevector" else ""

/-! ## Index translation of the optimisers (`graph/Optimiser.h`)

`IOptimiser` declares the translations as pure virtual functions; no optimiser
that implements them is among the sources. -/

/-- Modelled from the spec: the `PartitionMap` an optimiser holds after
`Optimise` (no implementation of `IOptimiser` is among the sources).  Section
3 describes it as a forward map and a reverse map between original and
partition-local qubit indices.  The forward map is stored: entry `q` of
`qubitsMap` is the partition-local index of the original qubit `q`. -/
structure PartitionMap where
  /-- The forward map, original qubit to partition-local qubit. -/
  qubitsMap : List Nat
  deriving DecidableEq

namespace PartitionMap

/-- The number of qubits the map covers. -/
def numQubits (pm : PartitionMap) : Nat := pm.qubitsMap.length

/-- Modelled from the spec: a computed map is a bijection of the qubit indices
`0 .. n - 1` (section 3, "bijection between original ... and
partitioned-local indices"): no local index is used twice and every local
index is below `n`. -/
def isComputed (pm : PartitionMap) : Prop :=
  pm.qubitsMap.Nodup ∧ ∀ p ∈ pm.qubitsMap, p < pm.qubitsMap.length

instance (pm : PartitionMap) : Decidable pm.isComputed := by
  unfold isComputed
  infer_instance

/-- Modelled from the spec: `GetQubitsMap`, the forward map. -/
def GetQubitsMap (pm : PartitionMap) : List Nat := pm.qubitsMap

/-- Modelled from the spec: `GetReverseQubitsMap`, built from the forward map:
entry `p` is the original qubit whose partition-local index is `p`. -/
def GetReverseQubitsMap (pm : PartitionMap) : List Nat :=
  (List.range pm.numQubits).map (fun p => pm.qubitsMap.indexOf p)

/-- Modelled from the spec: `TranslateQubitFromOriginal`, a lookup in the
forward map; an index the map does not cover is returned as it is. -/
def TranslateQubitFromOriginal (pm : PartitionMap) (qubit : Nat) : Nat :=
  pm.GetQubitsMap.getD qubit qubit

/-- Modelled from the spec: `TranslateQubitToOriginal`, a lookup in the
reverse map; an index the map does not cover is returned as it is. -/
def TranslateQubitToOriginal (pm : PartitionMap) (qubit : Nat) : Nat :=
  pm.GetReverseQubitsMap.getD qubit qubit

/-- The number below `2 ^ n` whose bit `i` is `bit i`, for `i < n`. -/
def assembleBits (bit : Nat → Bool) : Nat → Nat
  | 0 => 0
  | n + 1 => assembleBits bit n + (if bit n then 2 ^ n else 0)

/-- Modelled from the spec: `TranslateStateFromOriginal`, "the equivalent
mapping on a full composite basis-state index (covering all qubits jointly)"
(section 4.5): bit `p` of the result is the bit of `state` at the original
qubit of the partition-local qubit `p`. -/
def TranslateStateFromOriginal (pm : PartitionMap) (state : Nat) : Nat :=
  assembleBits (fun p => state.testBit (pm.TranslateQubitToOriginal p)) pm.numQubits

/-- Modelled from the spec: `TranslateStateToOriginal`: bit `q` of the result
is the bit of `state` at the partition-local qubit of the original qubit
`q`. -/
def TranslateStateToOriginal (pm : PartitionMap) (state : Nat) : Nat :=
  assembleBits (fun q => state.testBit (pm.TranslateQubitFromOriginal q)) pm.numQubits

end PartitionMap

/-! ## Backend selection (`Estimators/SimulatorsEstimatorInterface.h`)

`ChooseBestSimulator` is declared as a pure virtual function; no estimator
that implements it is among the sources. -/

/-- A candidate of the selection: a backend type and a method, by their
numeric tags. -/
structure Candidate where
  /-- The tag of the backend type. -/
  simType : Nat
  /-- The tag of the method. -/
  method : Nat
  deriving DecidableEq

/-- What the selection does to the registry. -/
inductive SelectorOp where
  /-- An instantiation of a backend for the candidate. -/
  | create (candidate : Candidate)
  /-- The pass-through configuration applied to the created instance. -/
  | configure (candidate : Candidate)
  /-- The destruction of the instance of a failed attempt. -/
  | destroy (candidate : Candidate)
  deriving DecidableEq

/-- The outcome of a selection. -/
structure Selection where
  /-- The chosen candidate, `none` when the selection failed. -/
  chosen : Option Candidate
  /-- The number of attempts made (the output parameter `counts`). -/
  counts : Nat
  /-- The candidates that were tried, in the order of the attempts. -/
  tried : List Candidate
  /-- The registry operations, oldest first. -/
  trace : List SelectorOp
  deriving DecidableEq

/-- Modelled from the spec: step 2 of section 4.4 (`ChooseBestSimulator` has no
implementation among the sources): the candidates in ascending order of
predicted time, ties in input order.  The predicted time is a natural number
here. -/
def sortCandidates (estimate : Candidate → Nat) (candidates : List Candidate) :
    List Candidate :=
  candidates.insertionSort (fun a b => estimate a ≤ estimate b)

/-- Modelled from the spec: steps 3 to 5 of section 4.4: the candidates are
attempted in the given order while attempts remain; an attempt instantiates a
backend, a successful one is configured and ends the selection, the instance
of a failed one is destroyed before the next attempt.  `constructs` tells
whether the instantiation of a candidate succeeds. -/
def attemptCandidates (constructs : Candidate → Bool) :
    List Candidate → Nat → Selection
  | [], _ => ⟨none, 0, [], []⟩
  | _ :: _, 0 => ⟨none, 0, [], []⟩
  | candidate :: rest, remaining + 1 =>
    if constructs candidate then
      ⟨some candidate, 1, [candidate],
        [SelectorOp.create candidate, SelectorOp.configure candidate]⟩
    else
      let later := attemptCandidates constructs rest remaining
      ⟨later.chosen, later.counts + 1, candidate :: later.tried,
        SelectorOp.create candidate :: SelectorOp.destroy candidate :: later.trace⟩

/-- Modelled from the spec: `ChooseBestSimulator` as section 4.4 describes it
(no implementation is among the sources): estimate every candidate, sort, and
attempt in sorted order with at most `maxSimulators` attempts. -/
def ChooseBestSimulator (estimate : Candidate → Nat) (constructs : Candidate → Bool)
    (simulatorTypes : List Candidate) (maxSimulators : Nat) : Selection :=
  attemptCandidates constructs (sortCandidates estimate simulatorTypes) maxSimulators

/-- The number of backend instances created in a trace. -/
def createdInstances (trace : List SelectorOp) : Nat :=
  (trace.filter (fun op => match op with
    | SelectorOp.create _ => true
    | _ => false)).length

/-! ## Lemmas on the response -/

theorem bitChar_injective : Function.Injective bitChar := by
  intro a b h
  cases a <;> cases b <;> first | rfl | (exact absurd h (by decide))

theorem foldl_bits_data (bits : List Bool) (acc : String) :
    (bits.foldl (fun s bit => s ++ (if bit then "1" else "0")) acc).data
      = acc.data ++ bits.map bitChar := by
  induction bits generalizing acc with
  | nil => simp
  | cons b rest ih =>
    rw [List.foldl_cons, ih]
    cases b <;> simp [bitChar, String.data_append]

theorem bitsToString_data (bits : List Bool) :
    (bitsToString bits).data = bits.map bitChar := by
  unfold bitsToString
  rw [foldl_bits_data]
  simp

theorem bitsToString_injective : Function.Injective bitsToString := by
  intro a b h
  have hd : (bitsToString a).data = (bitsToString b).data := by rw [h]
  rw [bitsToString_data, bitsToString_data] at hd
  exact (List.map_injective_iff.mpr bitChar_injective) hd

theorem assign_of_not_mem (o : JsonObject) (key : String) (v : JsonValue)
    (h : key ∉ o.map Prod.fst) : JsonObject.assign o key v = o ++ [(key, v)] := by
  induction o with
  | nil => rfl
  | cons m rest ih =>
    obtain ⟨k, w⟩ := m
    have hk : k ≠ key := by
      intro e
      apply h
      simp [e]
    have hrest : key ∉ rest.map Prod.fst := by
      intro hm
      apply h
      simp only [List.map_cons, List.mem_cons]
      exact Or.inr hm
    simp [JsonObject.assign, hk, ih hrest]

theorem foldl_assign_distinct (results : ExecuteResults) (acc : JsonObject)
    (h : (acc.map Prod.fst ++ results.map (fun r => bitsToString r.1)).Nodup) :
    results.foldl
      (fun jsonResult result =>
        JsonObject.assign jsonResult (bitsToString result.1) (.uint64 result.2)) acc
      = acc ++ results.map countEntry := by
  induction results generalizing acc with
  | nil => simp
  | cons r rest ih =>
    have hnot : bitsToString r.1 ∉ acc.map Prod.fst := by
      intro hm
      have := List.nodup_append.mp h
      exact this.2.2 hm (by simp)
    rw [List.foldl_cons, assign_of_not_mem _ _ _ hnot, ih]
    · simp [countEntry]
    · simpa [List.append_assoc] using h

theorem buildCounts_of_nodup (results : ExecuteResults)
    (h : (results.map Prod.fst).Nodup) :
    buildCounts results = results.map countEntry := by
  unfold buildCounts
  rw [foldl_assign_distinct results []]
  · simp
  · have := (List.nodup_map_iff bitsToString_injective).mpr h
    simpa [List.map_map] using this

theorem buildResponse_of_nodup (results : ExecuteResults)
    (h : (results.map Prod.fst).Nodup) :
    buildResponse results
      = .object [("counts", .object (results.map countEntry))] := by
  unfold buildResponse
  rw [buildCounts_of_nodup results h]
  rfl

/-! ## `SimpleExecute` on a live handle -/

theorem SimpleExecute_live {N C : Type} (json : JsonServices C) (net : INetwork N C)
    (maestro : Maestro N) (simpleSim : Nat) (circuitText configText : String)
    (n0 : N) (shots : Nat)
    (hhandle : simpleSim ≠ 0)
    (hlive : maestro.GetSimpleSimulator simpleSim = some n0)
    (hshots : getNrShots (json.ParseString configText) = .ok shots) :
    SimpleExecute json net (some maestro) simpleSim (some circuitText) (some configText)
      = ⟨(configureAndCreate json net (json.ParseString configText) n0).trace
            ++ [NetworkOp.repeatedExecuteOnHost (json.ParseCircuit circuitText) 0 shots],
          some (executeOnHost json net (json.ParseString configText)
            (json.ParseCircuit circuitText) shots n0).2,
          .ok (some (copyToBuffer (json.serialize (buildResponse
            (executeOnHost json net (json.ParseString configText)
              (json.ParseCircuit circuitText) shots n0).1))))⟩ := by
  simp [SimpleExecute, hhandle, hlive, hshots]

/-! ## C1: the counts of the response sum to the shot count -/

/-- C1: on a live handle, with a configuration whose shot count is `shots`, if
the map returned by the repeated execution has distinct outcomes and counts
that sum to `shots`, then `SimpleExecute` returns the serialization of an
object `counts` whose values are unsigned integers that sum to `shots`, one
member per outcome. -/
theorem SimpleExecute_counts_sum {N C : Type} (json : JsonServices C)
    (net : INetwork N C) (maestro : Maestro N) (simpleSim : Nat)
    (circuitText configText : String) (n0 : N) (shots : Nat)
    (hhandle : simpleSim ≠ 0)
    (hlive : maestro.GetSimpleSimulator simpleSim = some n0)
    (hshots : getNrShots (json.ParseString configText) = .ok shots)
    (hmap : ((executeOnHost json net (json.ParseString configText)
      (json.ParseCircuit circuitText) shots n0).1.map Prod.fst).Nodup)
    (hsum : ((executeOnHost json net (json.ParseString configText)
      (json.ParseCircuit circuitText) shots n0).1.map Prod.snd).sum = shots) :
    ∃ (counts : JsonObject) (values : List Nat),
      (SimpleExecute json net (some maestro) simpleSim (some circuitText)
          (some configText)).result
        = .ok (some (copyToBuffer (json.serialize
            (JsonValue.object [("counts", JsonValue.object counts)])))) ∧
      buildResponse (executeOnHost json net (json.ParseString configText)
          (json.ParseCircuit circuitText) shots n0).1
        = JsonValue.object [("counts", JsonValue.object counts)] ∧
      counts.map Prod.snd = values.map JsonValue.uint64 ∧
      values.sum = shots ∧
      counts.length = (executeOnHost json net (json.ParseString configText)
          (json.ParseCircuit circuitText) shots n0).1.length := by
  refine ⟨_, _, ?_, buildResponse_of_nodup _ hmap, ?_, hsum, ?_⟩
  · rw [SimpleExecute_live json net maestro simpleSim circuitText configText n0 shots
      hhandle hlive hshots, buildResponse_of_nodup _ hmap]
  · simp [List.map_map, countEntry, Function.comp_def]
  · simp

/-- C1, evaluated: handle 1 of the example registry, five shots.  The
hypotheses hold there, and the returned text is the one expected. -/
theorem SimpleExecute_counts_sum_witness :
    ((1 : Nat) ≠ 0 ∧
      (demoMaestro ⟨false, 0, []⟩).GetSimpleSimulator 1 = some ⟨false, 0, []⟩ ∧
      getNrShots (demoJson.ParseString configFiveShots) = .ok 5 ∧
      ((executeOnHost demoJson demoNetwork (demoJson.ParseString configFiveShots)
        (demoJson.ParseCircuit demoCircuit) 5 ⟨false, 0, []⟩).1.map Prod.snd).sum = 5) ∧
    (∃ (counts : JsonObject) (values : List Nat),
      (SimpleExecute demoJson demoNetwork (some (demoMaestro ⟨false, 0, []⟩)) 1
          (some demoCircuit) (some configFiveShots)).result
        = .ok (some (copyToBuffer (demoJson.serialize
            (JsonValue.object [("counts", JsonValue.object counts)])))) ∧
      buildResponse (executeOnHost demoJson demoNetwork
          (demoJson.ParseString configFiveShots)
          (demoJson.ParseCircuit demoCircuit) 5 ⟨false, 0, []⟩).1
        = JsonValue.object [("counts", JsonValue.object counts)] ∧
      counts.map Prod.snd = values.map JsonValue.uint64 ∧
      values.sum = 5 ∧
      counts.length = (executeOnHost demoJson demoNetwork
          (demoJson.ParseString configFiveShots)
          (demoJson.ParseCircuit demoCircuit) 5 ⟨false, 0, []⟩).1.length) ∧
    (SimpleExecute demoJson demoNetwork (some (demoMaestro ⟨false, 0, []⟩)) 1
        (some demoCircuit) (some configFiveShots)).result
      = .ok (some (copyToBuffer "\x7b\"counts\":\x7b\"00\":2,\"11\":3\x7d\x7d")) :=
  ⟨⟨by decide, by rfl, by rfl, by rfl⟩,
    SimpleExecute_counts_sum demoJson demoNetwork (demoMaestro ⟨false, 0, []⟩) 1
      demoCircuit configFiveShots ⟨false, 0, []⟩ 5 (by decide) (by rfl) (by rfl)
      (by decide) (by rfl),
    by rfl⟩

/-! ## C2: the shot count -/

theorem getNrShots_not_object (configJson : JsonValue)
    (h : configJson.is_object = false) : getNrShots configJson = .ok 1 := by
  simp [getNrShots, h]

theorem getNrShots_no_shots (configObject : JsonObject)
    (h : configObject.lookup "shots" = none) :
    getNrShots (.object configObject) = .ok 1 := by
  simp [getNrShots, JsonValue.is_object, JsonValue.members, h]

theorem getNrShots_not_number (configObject : JsonObject) (v : JsonValue)
    (h : configObject.lookup "shots" = some v) (hv : v.is_number = false) :
    getNrShots (.object configObject) = .ok 1 := by
  simp [getNrShots, JsonValue.is_object, JsonValue.members, h, hv]

theorem getNrShots_int64 (configObject : JsonObject) (i : Int)
    (h : configObject.lookup "shots" = some (.int64 i)) :
    getNrShots (.object configObject) = .ok (sizeOfInt64 i) := by
  simp [getNrShots, JsonValue.is_object, JsonValue.members, h, JsonValue.is_number,
    JsonValue.is_int64, JsonValue.as_int64, Except.map]

theorem getNrShots_uint64 (configObject : JsonObject) (n : Nat)
    (h : configObject.lookup "shots" = some (.uint64 n)) :
    getNrShots (.object configObject) = .ok n := by
  simp [getNrShots, JsonValue.is_object, JsonValue.members, h, JsonValue.is_number,
    JsonValue.is_int64, JsonValue.as_uint64]

theorem getNrShots_double (configObject : JsonObject) (bits : Nat)
    (h : configObject.lookup "shots" = some (.double bits)) :
    getNrShots (.object configObject) = .error .jsonKindMismatch := by
  simp [getNrShots, JsonValue.is_object, JsonValue.members, h, JsonValue.is_number,
    JsonValue.is_int64, JsonValue.as_uint64]

theorem sizeOfInt64_nonneg (i : Int) (h0 : 0 ≤ i) (h1 : i < 2 ^ 63) :
    (sizeOfInt64 i : Int) = i := by
  unfold sizeOfInt64
  have hlt : i < 2 ^ 64 := by omega
  rw [Int.emod_eq_of_lt h0 hlt]
  exact Int.toNat_of_nonneg h0

theorem sizeOfInt64_neg (i : Int) (h0 : i < 0) (h1 : -(2 ^ 63) ≤ i) :
    (sizeOfInt64 i : Int) = i + 2 ^ 64 := by
  unfold sizeOfInt64
  have h : i % 2 ^ 64 = i + 2 ^ 64 := by
    rw [← Int.add_emod_self]
    exact Int.emod_eq_of_lt (by omega) (by omega)
  rw [h]
  exact Int.toNat_of_nonneg (by omega)

/-- C2: with `shots` set to the integer -5 the shot count is 2^64 - 5, not 1,
and `RepeatedExecuteOnHost` is called with that count; with `shots` set to the
double 2.5 the call ends in the exception of `as_uint64()` before any network
operation. -/
theorem getNrShots_invalid_values :
    getNrShots (.object [("shots", .int64 (-5))]) = .ok 18446744073709551611 ∧
    (SimpleExecute demoJson demoNetwork (some (demoMaestro ⟨true, 1, []⟩)) 1
        (some demoCircuit) (some configNegativeShots)).trace
      = [NetworkOp.repeatedExecuteOnHost demoCircuit 0 18446744073709551611] ∧
    getNrShots (.object [("shots", .double 0x4004000000000000)])
      = .error .jsonKindMismatch ∧
    (SimpleExecute demoJson demoNetwork (some (demoMaestro ⟨true, 1, []⟩)) 1
        (some demoCircuit) (some configFractionalShots)).result = .error .jsonKindMismatch :=
  ⟨by rfl, by rfl, by rfl, by rfl⟩

/-! ## C3: `AllocateQubits` with zero growth -/

/-- C3 fails as stated: on a backend with three qubits `AllocateQubits(sim, 0)`
returns 0, not 3. -/
theorem AllocateQubits_zero_counterexample :
    demoSimulator.GetNumberOfQubits ⟨3⟩ = 3 ∧
    (AllocateQubits demoSimulator (some ⟨3⟩) 0).ret = 0 ∧
    (AllocateQubits demoSimulator (some ⟨3⟩) 0).ret
      ≠ demoSimulator.GetNumberOfQubits ⟨3⟩ :=
  ⟨by rfl, by rfl, by decide⟩

/-- C3, amended: for every non-null simulator reference `AllocateQubits(sim, 0)`
returns 0, makes no call on the backend and leaves its state (so its qubit
count) as it was. -/
theorem AllocateQubits_zero {S : Type} (backend : ISimulator S) (simulator : S) :
    AllocateQubits backend (some simulator) 0 = ⟨0, some simulator, []⟩ ∧
    (GetNumberOfQubits backend (AllocateQubits backend (some simulator) 0).sim).ret
      = backend.GetNumberOfQubits simulator := by
  constructor <;> rfl

/-! ## C4: `Measure` and out-of-range indices -/

/-- C4 fails as stated: on a backend with two qubits, `Measure` on the list
`[5]` calls the backend's `Measure` with that list. -/
theorem Measure_out_of_range_counterexample :
    demoSimulator.GetNumberOfQubits ⟨2⟩ = 2 ∧
    (Measure demoSimulator (some ⟨2⟩) (some [5]) 1).trace = [SimulatorOp.measure [5]] ∧
    ¬ ((Measure demoSimulator (some ⟨2⟩) (some [5]) 1).ret = 0 ∧
       (Measure demoSimulator (some ⟨2⟩) (some [5]) 1).trace = []) :=
  ⟨by rfl, by rfl, by decide⟩

/-- C4, amended: for every non-null simulator reference and every non-null
array with `nrQubits > 0`, whatever the indices, `Measure` makes exactly one
call of the backend's `Measure`, with the first `nrQubits` entries of the
array unchanged, and returns what the backend returns; the state afterwards is
the one the backend leaves. -/
theorem Measure_forwards {S : Type} (backend : ISimulator S) (simulator : S)
    (qubits : List Nat) (nrQubits : Nat) (hn : nrQubits ≠ 0) :
    Measure backend (some simulator) (some qubits) nrQubits
      = ⟨(backend.Measure (qubits.take nrQubits) simulator).1,
          some (backend.Measure (qubits.take nrQubits) simulator).2,
          [SimulatorOp.measure (qubits.take nrQubits)]⟩ := by
  simp [Measure, hn, qubitVector]

/-- C4, amended, evaluated on a backend with two qubits and the list `[5]`. -/
theorem Measure_forwards_witness :
    (1 : Nat) ≠ 0 ∧
    Measure demoSimulator (some ⟨2⟩) (some [5]) 1
      = ⟨(demoSimulator.Measure ([5].take 1) ⟨2⟩).1,
          some (demoSimulator.Measure ([5].take 1) ⟨2⟩).2,
          [SimulatorOp.measure ([5].take 1)]⟩ :=
  ⟨by decide, Measure_forwards demoSimulator ⟨2⟩ [5] 1 (by decide)⟩

/-! ## C5: a handle that is not live -/

theorem SimpleExecute_dead_handle {N C : Type} (json : JsonServices C)
    (net : INetwork N C) (maestro : Maestro N) (simpleSim : Nat)
    (circuitText configText : String) (shots : Nat)
    (hhandle : simpleSim ≠ 0)
    (hdead : maestro.GetSimpleSimulator simpleSim = none)
    (hshots : getNrShots (json.ParseString configText) = .ok shots) :
    SimpleExecute json net (some maestro) simpleSim (some circuitText) (some configText)
      = ⟨[], none, .error .nullDereference⟩ := by
  simp [SimpleExecute, hhandle, hdead, hshots]

/-- C5: on handle 7, which the example registry does not know, `SimpleExecute`
does not return null: it ends in the dereference of the null lookup result
(no network operation has been made by then). -/
theorem SimpleExecute_unknown_handle :
    (demoMaestro ⟨true, 1, []⟩).GetSimpleSimulator 7 = none ∧
    (SimpleExecute demoJson demoNetwork (some (demoMaestro ⟨true, 1, []⟩)) 7
        (some demoCircuit) (some configFiveShots)).result = .error .nullDereference ∧
    (SimpleExecute demoJson demoNetwork (some (demoMaestro ⟨true, 1, []⟩)) 7
        (some demoCircuit) (some configFiveShots)).result ≠ .ok none ∧
    (SimpleExecute demoJson demoNetwork (some (demoMaestro ⟨true, 1, []⟩)) 7
        (some demoCircuit) (some configFiveShots)).trace = [] :=
  ⟨by rfl, by rfl, by simp [SimpleExecute_dead_handle demoJson demoNetwork
      (demoMaestro ⟨true, 1, []⟩) 7 demoCircuit configFiveShots 5 (by decide) (by rfl) (by rfl)],
    by rfl⟩

/-! ## C6: the members of the counts object -/

theorem bitsToString_eq_mk (bits : List Bool) :
    bitsToString bits = String.mk (bits.map (fun bit => if bit then '1' else '0')) := by
  apply String.ext
  rw [bitsToString_data]
  rfl

/-- C6: on a live handle, if the outcomes of the map returned by the repeated
execution are distinct, `SimpleExecute` returns the serialization of the
object whose only member is `counts`, and `counts` has, in the order of the
results, exactly one member per outcome `(b, c)`: its key is the string whose
characters are `'1'` where `b` is set and `'0'` elsewhere, in vector order,
and its value is the unsigned integer `c`.  The keys are pairwise distinct. -/
theorem SimpleExecute_counts_members {N C : Type} (json : JsonServices C)
    (net : INetwork N C) (maestro : Maestro N) (simpleSim : Nat)
    (circuitText configText : String) (n0 : N) (shots : Nat)
    (results : ExecuteResults)
    (hhandle : simpleSim ≠ 0)
    (hlive : maestro.GetSimpleSimulator simpleSim = some n0)
    (hshots : getNrShots (json.ParseString configText) = .ok shots)
    (hrun : (executeOnHost json net (json.ParseString configText)
      (json.ParseCircuit circuitText) shots n0).1 = results)
    (hmap : (results.map Prod.fst).Nodup) :
    (SimpleExecute json net (some maestro) simpleSim (some circuitText)
        (some configText)).result
      = .ok (some (copyToBuffer (json.serialize (buildResponse results)))) ∧
    buildResponse results
      = JsonValue.object [("counts", JsonValue.object (results.map (fun r =>
          (String.mk (r.1.map (fun bit => if bit then '1' else '0')),
            JsonValue.uint64 r.2))))] ∧
    (results.map (fun r =>
      String.mk (r.1.map (fun bit => if bit then '1' else '0')))).Nodup := by
  refine ⟨?_, ?_, ?_⟩
  · rw [SimpleExecute_live json net maestro simpleSim circuitText configText n0 shots
      hhandle hlive hshots, hrun]
  · rw [buildResponse_of_nodup results hmap]
    have he : countEntry = fun r =>
        (String.mk (r.1.map (fun bit => if bit then '1' else '0')),
          JsonValue.uint64 r.2) := by
      funext r
      simp only [countEntry, bitsToString_eq_mk]
    rw [he]
  · have h := (List.nodup_map_iff bitsToString_injective).mpr hmap
    rw [List.map_map] at h
    have he : (bitsToString ∘ Prod.fst : List Bool × Nat → String)
        = fun r => String.mk (r.1.map (fun bit => if bit then '1' else '0')) := by
      funext r
      exact bitsToString_eq_mk r.1
    rw [he] at h
    exact h

/-- C6, evaluated: handle 1 of the example registry, five shots, outcomes
`00` (twice) and `11` (three times). -/
theorem SimpleExecute_counts_members_witness :
    ((1 : Nat) ≠ 0 ∧
      (demoMaestro ⟨false, 0, []⟩).GetSimpleSimulator 1 = some ⟨false, 0, []⟩ ∧
      getNrShots (demoJson.ParseString configFiveShots) = .ok 5 ∧
      (executeOnHost demoJson demoNetwork (demoJson.ParseString configFiveShots)
        (demoJson.ParseCircuit demoCircuit) 5 ⟨false, 0, []⟩).1
        = [([false, false], 2), ([true, true], 3)]) ∧
    ((SimpleExecute demoJson demoNetwork (some (demoMaestro ⟨false, 0, []⟩)) 1
        (some demoCircuit) (some configFiveShots)).result
      = .ok (some (copyToBuffer (demoJson.serialize
          (buildResponse [([false, false], 2), ([true, true], 3)])))) ∧
    buildResponse [([false, false], 2), ([true, true], 3)]
      = JsonValue.object [("counts", JsonValue.object
          ([([false, false], 2), ([true, true], 3)].map (fun r =>
            (String.mk (r.1.map (fun bit => if bit then '1' else '0')),
              JsonValue.uint64 r.2))))] ∧
    (([([false, false], 2), ([true, true], 3)] : ExecuteResults).map (fun r =>
      String.mk (r.1.map (fun bit => if bit then '1' else '0')))).Nodup) ∧
    ([([false, false], 2), ([true, true], 3)] : ExecuteResults).map (fun r =>
        (String.mk (r.1.map (fun bit => if bit then '1' else '0')), r.2))
      = [("00", 2), ("11", 3)] :=
  ⟨⟨by decide, by rfl, by rfl, by rfl⟩,
    SimpleExecute_counts_members demoJson demoNetwork (demoMaestro ⟨false, 0, []⟩) 1
      demoCircuit configFiveShots ⟨false, 0, []⟩ 5
      [([false, false], 2), ([true, true], 3)]
      (by decide) (by rfl) (by rfl) (by rfl) (by decide),
    by rfl⟩

/-! ## The configuration blocks -/

theorem applyConfigKey_trace {N C : Type} (net : INetwork N C) (key value : String)
    (p : Progress N C) :
    (applyConfigKey net key value p).trace
      = p.trace ++ (if value = "" then []
          else (if net.hasSimulator p.network then [NetworkOp.simulatorClear] else [])
            ++ [NetworkOp.configure key value]) := by
  unfold applyConfigKey
  by_cases hv : value = ""
  · simp [hv]
  · by_cases hs : net.hasSimulator p.network <;> simp [hv, hs]

theorem applyConfigKey_network {N C : Type} (net : INetwork N C) (key value : String)
    (p : Progress N C) :
    (applyConfigKey net key value p).network
      = if value = "" then p.network
        else net.Configure key value
          (if net.hasSimulator p.network then net.simulatorClear p.network
            else p.network) := by
  unfold applyConfigKey
  by_cases hv : value = ""
  · simp [hv]
  · by_cases hs : net.hasSimulator p.network <;> simp [hv, hs]

theorem applyConfigKey_configured {N C : Type} (net : INetwork N C)
    (key value : String) (p : Progress N C) :
    (applyConfigKey net key value p).configured
      = (p.configured || decide (value ≠ "")) := by
  unfold applyConfigKey
  by_cases hv : value = "" <;> simp [hv]

theorem applyConfigKey_network_of_not_configured {N C : Type} (net : INetwork N C)
    (key value : String) (p : Progress N C)
    (h : (applyConfigKey net key value p).configured = false) :
    (applyConfigKey net key value p).network = p.network := by
  rw [applyConfigKey_configured] at h
  have hv : value = "" := by
    by_contra hne
    simp [hne] at h
  rw [applyConfigKey_network, if_pos hv]

theorem ensureSimulator_trace {N C : Type} (net : INetwork N C) (p : Progress N C) :
    (ensureSimulator net p).trace
      = p.trace ++ (if p.configured = true ∨ net.hasSimulator p.network = false
          then [NetworkOp.createSimulator] else []) := by
  unfold ensureSimulator
  by_cases hc : p.configured = true <;> by_cases hs : net.hasSimulator p.network = true <;>
    simp [hc, hs]

theorem createSimulator_not_mem_block {N C : Type} (net : INetwork N C)
    (key value : String) (n : N) :
    NetworkOp.createSimulator ∉
      (if value = "" then ([] : List (NetworkOp C))
        else (if net.hasSimulator n then [NetworkOp.simulatorClear] else [])
          ++ [NetworkOp.configure key value]) := by
  by_cases hv : value = "" <;> by_cases hs : net.hasSimulator n = true <;> simp [hv, hs]

theorem configureAndCreate_split {N C : Type} (json : JsonServices C)
    (net : INetwork N C) (configJson : JsonValue) (n0 : N) :
    ∃ before : List (NetworkOp C),
      NetworkOp.createSimulator ∉ before ∧
      (configureAndCreate json net configJson n0).trace
        = before ++
          (if (json.GetConfigString "matrix_product_state_max_bond_dimension" configJson ≠ "" ∨
                json.GetConfigString "matrix_product_state_truncation_threshold" configJson ≠ "" ∨
                json.GetConfigString "mps_sample_measure_algorithm" configJson ≠ "") ∨
              net.hasSimulator n0 = false
            then [NetworkOp.createSimulator] else []) := by
  refine ⟨(applyConfigKey net "mps_sample_measure_algorithm"
      (json.GetConfigString "mps_sample_measure_algorithm" configJson)
      (applyConfigKey net "matrix_product_state_truncation_threshold"
        (json.GetConfigString "matrix_product_state_truncation_threshold" configJson)
        (applyConfigKey net "matrix_product_state_max_bond_dimension"
          (json.GetConfigString "matrix_product_state_max_bond_dimension" configJson)
          ⟨n0, [], false⟩))).trace, ?_, ?_⟩
  · simp only [applyConfigKey_trace]
    intro hmem
    simp only [List.mem_append, List.not_mem_nil, false_or] at hmem
    rcases hmem with (hmem | hmem) | hmem
    · exact createSimulator_not_mem_block net _ _ _ hmem
    · exact createSimulator_not_mem_block net _ _ _ hmem
    · exact createSimulator_not_mem_block net _ _ _ hmem
  · show (ensureSimulator net _).trace = _
    rw [ensureSimulator_trace]
    congr 1
    simp only [applyConfigKey_configured, applyConfigKey_network]
    by_cases h1 : json.GetConfigString "matrix_product_state_max_bond_dimension" configJson = ""
      <;> by_cases h2 :
        json.GetConfigString "matrix_product_state_truncation_threshold" configJson = ""
      <;> by_cases h3 : json.GetConfigString "mps_sample_measure_algorithm" configJson = ""
      <;> by_cases hs : net.hasSimulator n0 = true
      <;> simp [h1, h2, h3, hs]

theorem ensureSimulator_network {N C : Type} (net : INetwork N C) (p : Progress N C) :
    (ensureSimulator net p).network
      = if p.configured = true ∨ net.hasSimulator p.network = false
          then net.CreateSimulator p.network else p.network := by
  unfold ensureSimulator
  by_cases hc : p.configured = true <;> by_cases hs : net.hasSimulator p.network = true <;>
    simp [hc, hs]

theorem configureAndCreate_network {N C : Type} (json : JsonServices C)
    (net : INetwork N C) (configJson : JsonValue) (n0 : N) :
    let v1 := json.GetConfigString "matrix_product_state_max_bond_dimension" configJson
    let v2 := json.GetConfigString "matrix_product_state_truncation_threshold" configJson
    let v3 := json.GetConfigString "mps_sample_measure_algorithm" configJson
    let after : String → String → N → N := fun key value n =>
      if value = "" then n
      else net.Configure key value (if net.hasSimulator n then net.simulatorClear n else n)
    let n1 := after "matrix_product_state_max_bond_dimension" v1 n0
    let n2 := after "matrix_product_state_truncation_threshold" v2 n1
    let n3 := after "mps_sample_measure_algorithm" v3 n2
    (configureAndCreate json net configJson n0).network
      = if v1 = "" ∧ v2 = "" ∧ v3 = "" ∧ net.hasSimulator n0 = true then n0
        else net.CreateSimulator n3 := by
  intro v1 v2 v3 after n1 n2 n3
  simp only [configureAndCreate, ensureSimulator_network, applyConfigKey_network,
    applyConfigKey_configured]
  by_cases h1 : json.GetConfigString "matrix_product_state_max_bond_dimension" configJson = ""
    <;> by_cases h2 :
      json.GetConfigString "matrix_product_state_truncation_threshold" configJson = ""
    <;> by_cases h3 : json.GetConfigString "mps_sample_measure_algorithm" configJson = ""
    <;> by_cases hs : net.hasSimulator n0 = true
    <;> simp [v1, v2, v3, after, n1, n2, n3, h1, h2, h3, hs]

/-! ## C7: the calls made for the backend-configuration keys -/

/-- C8 fails as stated: after a first call that applied
`mps_sample_measure_algorithm`, the network has a simulator; a second call with
the same configuration calls `CreateSimulator` again. -/
theorem SimpleExecute_same_configuration_counterexample :
    (SimpleExecute demoJson demoNetwork (some (demoMaestro ⟨false, 0, []⟩)) 1
        (some demoCircuit) (some configSample)).network
      = some ⟨true, 1, [("mps_sample_measure_algorithm", "mps_probabilities")]⟩ ∧
    demoNetwork.hasSimulator
      ⟨true, 1, [("mps_sample_measure_algorithm", "mps_probabilities")]⟩ = true ∧
    NetworkOp.createSimulator ∈
      (SimpleExecute demoJson demoNetwork
        (some (demoMaestro
          ⟨true, 1, [("mps_sample_measure_algorithm", "mps_probabilities")]⟩)) 1
        (some demoCircuit) (some configSample)).trace :=
  ⟨by rfl, by rfl, by decide⟩

/-- C8, amended: on a live handle and with a configuration whose shot count can
be read, `SimpleExecute` calls `CreateSimulator` exactly when at least one of
the three keys has a non-empty string in the configuration of this call, or
the network has no simulator on entry; the call is then the last one before
the repeated execution, and there is no other.  In that case the circuit is
executed on the network as `CreateSimulator` left it after the configuration
blocks; otherwise it is executed on the network as it was on entry, that is
with the existing simulator.  The network after the call and the response are
those of that execution. -/
theorem SimpleExecute_creates_simulator {N C : Type} (json : JsonServices C)
    (net : INetwork N C) (maestro : Maestro N) (simpleSim : Nat)
    (circuitText configText : String) (n0 : N) (shots : Nat)
    (hhandle : simpleSim ≠ 0)
    (hlive : maestro.GetSimpleSimulator simpleSim = some n0)
    (hshots : getNrShots (json.ParseString configText) = .ok shots) :
    let configJson := json.ParseString configText
    let v1 := json.GetConfigString "matrix_product_state_max_bond_dimension" configJson
    let v2 := json.GetConfigString "matrix_product_state_truncation_threshold" configJson
    let v3 := json.GetConfigString "mps_sample_measure_algorithm" configJson
    let applied : Prop := v1 ≠ "" ∨ v2 ≠ "" ∨ v3 ≠ ""
    let after : String → String → N → N := fun key value n =>
      if value = "" then n
      else net.Configure key value (if net.hasSimulator n then net.simulatorClear n else n)
    let n3 := after "mps_sample_measure_algorithm" v3
      (after "matrix_product_state_truncation_threshold" v2
        (after "matrix_product_state_max_bond_dimension" v1 n0))
    let run := net.RepeatedExecuteOnHost (json.ParseCircuit circuitText) 0 shots
      (if applied ∨ net.hasSimulator n0 = false then net.CreateSimulator n3 else n0)
    let trace := (SimpleExecute json net (some maestro) simpleSim (some circuitText)
      (some configText)).trace
    (NetworkOp.createSimulator ∈ trace ↔ (applied ∨ net.hasSimulator n0 = false)) ∧
    (∃ before : List (NetworkOp C),
      NetworkOp.createSimulator ∉ before ∧
      trace = before
        ++ (if applied ∨ net.hasSimulator n0 = false then [NetworkOp.createSimulator]
            else [])
        ++ [NetworkOp.repeatedExecuteOnHost (json.ParseCircuit circuitText) 0 shots]) ∧
    (SimpleExecute json net (some maestro) simpleSim (some circuitText)
        (some configText)).network = some run.2 ∧
    (SimpleExecute json net (some maestro) simpleSim (some circuitText)
        (some configText)).result
      = .ok (some (copyToBuffer (json.serialize (buildResponse run.1)))) := by
  intro configJson v1 v2 v3 applied after n3 run trace
  have hlive2 := SimpleExecute_live json net maestro simpleSim circuitText configText n0
    shots hhandle hlive hshots
  have htrace : trace = (configureAndCreate json net (json.ParseString configText) n0).trace
      ++ [NetworkOp.repeatedExecuteOnHost (json.ParseCircuit circuitText) 0 shots] := by
    show (SimpleExecute json net (some maestro) simpleSim (some circuitText)
      (some configText)).trace = _
    rw [hlive2]
  obtain ⟨before, hnot, hsplit⟩ :=
    configureAndCreate_split json net (json.ParseString configText) n0
  have heq : trace = before
      ++ (if applied ∨ net.hasSimulator n0 = false then [NetworkOp.createSimulator]
          else [])
      ++ [NetworkOp.repeatedExecuteOnHost (json.ParseCircuit circuitText) 0 shots] := by
    rw [htrace, hsplit]
  have hnet : (configureAndCreate json net (json.ParseString configText) n0).network
      = if applied ∨ net.hasSimulator n0 = false then net.CreateSimulator n3 else n0 := by
    have h := configureAndCreate_network json net (json.ParseString configText) n0
    simp only at h
    rw [h]
    by_cases hc : applied ∨ net.hasSimulator n0 = false
    · have hn : ¬ (v1 = "" ∧ v2 = "" ∧ v3 = "" ∧ net.hasSimulator n0 = true) := by
        rintro ⟨a, b, c, d⟩
        rcases hc with (h1 | h2 | h3) | h4
        · exact h1 a
        · exact h2 b
        · exact h3 c
        · rw [d] at h4
          exact Bool.noConfusion h4
      rw [if_neg hn, if_pos hc]
    · have hp : v1 = "" ∧ v2 = "" ∧ v3 = "" ∧ net.hasSimulator n0 = true := by
        refine ⟨?_, ?_, ?_, ?_⟩
        · by_contra x
          exact hc (Or.inl (Or.inl x))
        · by_contra x
          exact hc (Or.inl (Or.inr (Or.inl x)))
        · by_contra x
          exact hc (Or.inl (Or.inr (Or.inr x)))
        · cases hb : net.hasSimulator n0
          · exact absurd (Or.inr hb) hc
          · rfl
      rw [if_pos hp, if_neg hc]
  have hrun : executeOnHost json net (json.ParseString configText)
      (json.ParseCircuit circuitText) shots n0 = run := by
    unfold executeOnHost
    rw [hnet]
  refine ⟨?_, ⟨before, hnot, heq⟩, ?_, ?_⟩
  · rw [heq]
    by_cases hc : applied ∨ net.hasSimulator n0 = false
    · simp [hc]
    · simp [hc, hnot]
  · rw [hlive2, hrun]
  · rw [hlive2, hrun]

/-- C8, amended, evaluated on the second call of the counterexample: the
network has a simulator and the sampling algorithm is set again; a second
simulator is created and the circuit runs on that network. -/
theorem SimpleExecute_creates_simulator_witness :
    ((1 : Nat) ≠ 0 ∧
      (demoMaestro ⟨true, 1, [("mps_sample_measure_algorithm", "mps_probabilities")]⟩
        ).GetSimpleSimulator 1
        = some ⟨true, 1, [("mps_sample_measure_algorithm", "mps_probabilities")]⟩ ∧
      getNrShots (demoJson.ParseString configSample) = .ok 5) ∧
    NetworkOp.createSimulator ∈
      (SimpleExecute demoJson demoNetwork
        (some (demoMaestro
          ⟨true, 1, [("mps_sample_measure_algorithm", "mps_probabilities")]⟩)) 1
        (some demoCircuit) (some configSample)).trace ∧
    (SimpleExecute demoJson demoNetwork
        (some (demoMaestro
          ⟨true, 1, [("mps_sample_measure_algorithm", "mps_probabilities")]⟩)) 1
        (some demoCircuit) (some configSample)).network
      = some ⟨true, 2, [("mps_sample_measure_algorithm", "mps_probabilities"),
          ("mps_sample_measure_algorithm", "mps_probabilities")]⟩ ∧
    (executeOnHost demoJson demoNetwork (demoJson.ParseString configSample)
        (demoJson.ParseCircuit demoCircuit) 5
        ⟨true, 1, [("mps_sample_measure_algorithm", "mps_probabilities")]⟩).2
      = ⟨true, 2, [("mps_sample_measure_algorithm", "mps_probabilities"),
          ("mps_sample_measure_algorithm", "mps_probabilities")]⟩ :=
  ⟨⟨by decide, by rfl, by rfl⟩,
    (SimpleExecute_creates_simulator demoJson demoNetwork
      (demoMaestro ⟨true, 1, [("mps_sample_measure_algorithm", "mps_probabilities")]⟩) 1
      demoCircuit configSample
      ⟨true, 1, [("mps_sample_measure_algorithm", "mps_probabilities")]⟩ 5
      (by decide) (by rfl) (by rfl)).1.mpr (Or.inl (by decide)),
    ((SimpleExecute_creates_simulator demoJson demoNetwork
      (demoMaestro ⟨true, 1, [("mps_sample_measure_algorithm", "mps_probabilities")]⟩) 1
      demoCircuit configSample
      ⟨true, 1, [("mps_sample_measure_algorithm", "mps_probabilities")]⟩ 5
      (by decide) (by rfl) (by rfl)).2.2.1).trans (by rfl),
    by rfl⟩

/-! ## C9: keys that are not recognised -/

theorem getNrShots_congr (a b : JsonObject)
    (h : a.lookup "shots" = b.lookup "shots") :
    getNrShots (.object a) = getNrShots (.object b) := by
  simp [getNrShots, JsonValue.is_object, JsonValue.members, h]

theorem configureAndCreate_congr {N C : Type} (json : JsonServices C)
    (net : INetwork N C) (c1 c2 : JsonValue) (n0 : N)
    (h1 : json.GetConfigString "matrix_product_state_max_bond_dimension" c1
      = json.GetConfigString "matrix_product_state_max_bond_dimension" c2)
    (h2 : json.GetConfigString "matrix_product_state_truncation_threshold" c1
      = json.GetConfigString "matrix_product_state_truncation_threshold" c2)
    (h3 : json.GetConfigString "mps_sample_measure_algorithm" c1
      = json.GetConfigString "mps_sample_measure_algorithm" c2) :
    configureAndCreate json net c1 n0 = configureAndCreate json net c2 n0 := by
  simp only [configureAndCreate, h1, h2, h3]

/-- C9: let two configuration texts parse to objects that agree on the members
`shots`, `matrix_product_state_max_bond_dimension`,
`matrix_product_state_truncation_threshold` and `mps_sample_measure_algorithm`,
and let `GetConfigString(key, object)` depend on the object only through its
member `key`.  Then for every library instance, handle, network state and
circuit the two calls of `SimpleExecute` are equal: the same calls on the
network in the same order with the same shot count, the same final network
state and the same result. -/
theorem SimpleExecute_ignores_other_keys {N C : Type} (json : JsonServices C)
    (net : INetwork N C) (maestroInstance : Option (Maestro N)) (simpleSim : Nat)
    (jsonCircuit : Option String) (text1 text2 : String) (o1 o2 : JsonObject)
    (hparse1 : json.ParseString text1 = .object o1)
    (hparse2 : json.ParseString text2 = .object o2)
    (hlocal : ∀ (key : String) (a b : JsonObject), a.lookup key = b.lookup key →
      json.GetConfigString key (.object a) = json.GetConfigString key (.object b))
    (hshots : o1.lookup "shots" = o2.lookup "shots")
    (hbond : o1.lookup "matrix_product_state_max_bond_dimension"
      = o2.lookup "matrix_product_state_max_bond_dimension")
    (hthreshold : o1.lookup "matrix_product_state_truncation_threshold"
      = o2.lookup "matrix_product_state_truncation_threshold")
    (hsample : o1.lookup "mps_sample_measure_algorithm"
      = o2.lookup "mps_sample_measure_algorithm") :
    SimpleExecute json net maestroInstance simpleSim jsonCircuit (some text1)
      = SimpleExecute json net maestroInstance simpleSim jsonCircuit (some text2) := by
  have hs := getNrShots_congr o1 o2 hshots
  have hc : ∀ n0 : N, configureAndCreate json net (.object o1) n0
      = configureAndCreate json net (.object o2) n0 := fun n0 =>
    configureAndCreate_congr json net _ _ n0 (hlocal _ _ _ hbond)
      (hlocal _ _ _ hthreshold) (hlocal _ _ _ hsample)
  cases maestroInstance with
  | none => rfl
  | some maestro =>
    cases jsonCircuit with
    | none => rfl
    | some circuitText =>
      simp only [SimpleExecute, executeOnHost, hparse1, hparse2, hs, hc]

/-- C9, evaluated: the second configuration has an extra member `note` and its
members in another order. -/
theorem SimpleExecute_ignores_other_keys_witness :
    (demoJson.ParseString configSample
        = .object [("shots", .int64 5),
            ("mps_sample_measure_algorithm", .string "mps_probabilities")] ∧
      demoJson.ParseString configSampleNote
        = .object [("note", .string "x"),
            ("mps_sample_measure_algorithm", .string "mps_probabilities"),
            ("shots", .int64 5)] ∧
      (∀ (key : String) (a b : JsonObject), a.lookup key = b.lookup key →
        demoJson.GetConfigString key (.object a)
          = demoJson.GetConfigString key (.object b))) ∧
    SimpleExecute demoJson demoNetwork (some (demoMaestro ⟨true, 1, []⟩)) 1
        (some demoCircuit) (some configSample)
      = SimpleExecute demoJson demoNetwork (some (demoMaestro ⟨true, 1, []⟩)) 1
        (some demoCircuit) (some configSampleNote) :=
  have hlocal : ∀ (key : String) (a b : JsonObject), a.lookup key = b.lookup key →
      demoJson.GetConfigString key (.object a)
        = demoJson.GetConfigString key (.object b) := fun key a b h => by
    show demoGetConfigString key (.object a) = demoGetConfigString key (.object b)
    simp only [demoGetConfigString, JsonValue.members, h]
  ⟨⟨by rfl, by rfl, hlocal⟩,
    SimpleExecute_ignores_other_keys demoJson demoNetwork
      (some (demoMaestro ⟨true, 1, []⟩)) 1 (some demoCircuit) configSample configSampleNote
      [("shots", .int64 5), ("mps_sample_measure_algorithm", .string "mps_probabilities")]
      [("note", .string "x"), ("mps_sample_measure_algorithm", .string "mps_probabilities"),
        ("shots", .int64 5)]
      (by rfl) (by rfl) hlocal (by rfl) (by rfl) (by rfl) (by rfl)⟩

/-! ## C10: the buffer of `SampleCounts` -/

theorem foldl_fill (counts : List (Nat × Nat)) (acc : List Nat) :
    counts.foldl (fun result count => result ++ [count.1, count.2]) acc
      = acc ++ fillCounts counts := by
  induction counts generalizing acc with
  | nil => simp [fillCounts]
  | cons c rest ih =>
    unfold fillCounts
    rw [List.foldl_cons, List.foldl_cons, ih, ih ([] ++ [c.1, c.2])]
    simp [fillCounts]

theorem fillCounts_cons (c : Nat × Nat) (rest : List (Nat × Nat)) :
    fillCounts (c :: rest) = c.1 :: c.2 :: fillCounts rest := by
  have h := foldl_fill rest ([] ++ [c.1, c.2])
  simpa [fillCounts] using h

theorem fillCounts_length (counts : List (Nat × Nat)) :
    (fillCounts counts).length = 2 * counts.length := by
  induction counts with
  | nil => rfl
  | cons c rest ih =>
    rw [fillCounts_cons, List.length_cons, List.length_cons, List.length_cons, ih]
    omega

theorem fillCounts_even (counts : List (Nat × Nat)) (i : Nat) :
    (fillCounts counts)[2 * i]? = (counts[i]?).map Prod.fst := by
  induction counts generalizing i with
  | nil => simp [fillCounts]
  | cons c rest ih =>
    rw [fillCounts_cons]
    cases i with
    | zero => simp
    | succ j =>
      have h2 : 2 * (j + 1) = 2 * j + 1 + 1 := by omega
      rw [h2, List.getElem?_cons_succ, List.getElem?_cons_succ, List.getElem?_cons_succ, ih]

theorem fillCounts_odd (counts : List (Nat × Nat)) (i : Nat) :
    (fillCounts counts)[2 * i + 1]? = (counts[i]?).map Prod.snd := by
  induction counts generalizing i with
  | nil => simp [fillCounts]
  | cons c rest ih =>
    rw [fillCounts_cons]
    cases i with
    | zero => simp
    | succ j =>
      have h2 : 2 * (j + 1) + 1 = (2 * j + 1) + 1 + 1 := by omega
      rw [h2, List.getElem?_cons_succ, List.getElem?_cons_succ, List.getElem?_cons_succ, ih]

theorem fillCounts_odd_sum (counts : List (Nat × Nat)) :
    ((List.range counts.length).map (fun i => (fillCounts counts)[2 * i + 1]?.getD 0)).sum
      = (counts.map Prod.snd).sum := by
  congr 1
  apply List.ext_getElem
  · simp
  · intro n h1 h2
    have hn : n < counts.length := by simpa using h1
    simp [fillCounts_odd, List.getElem?_eq_getElem hn]

theorem SampleCounts_null {S : Type} (backend : ISimulator S) (sim : Option S)
    (qubits : Option (List Nat)) (nrQubits shots : Nat)
    (h : sim = none ∨ qubits = none ∨ nrQubits = 0 ∨ shots = 0) :
    SampleCounts backend sim qubits nrQubits shots = ⟨none, sim, []⟩ := by
  cases sim with
  | none => cases qubits <;> rfl
  | some simulator =>
    cases qubits with
    | none => rfl
    | some qs =>
      have hz : nrQubits = 0 ∨ shots = 0 := by
        rcases h with h | h | h | h
        · exact Option.noConfusion h
        · exact Option.noConfusion h
        · exact Or.inl h
        · exact Or.inr h
      simp [SampleCounts, hz]

/-- C10: for a non-null simulator reference, a non-null array, `nrQubits > 0`
and `shots > 0`, if the backend's `SampleCounts` returns a map `counts` with
distinct outcomes whose counts sum to `shots`, the boundary `SampleCounts`
makes that one backend call and returns a buffer of `2 * k` entries, `k` the
number of entries of the map: entry `2i` is the outcome and entry `2i + 1` the
count of the `i`-th entry, every outcome of the map is at exactly one even
position, and the entries at odd positions sum to `shots`.  When `sim` or
`qubits` is null, or `nrQubits` or `shots` is 0, the call returns null and
makes no backend call. -/
theorem SampleCounts_buffer {S : Type} (backend : ISimulator S) (simulator : S)
    (qubits : List Nat) (nrQubits shots : Nat) (counts : List (Nat × Nat))
    (hn : nrQubits ≠ 0) (hs : shots ≠ 0)
    (hcounts : (backend.SampleCounts (qubits.take nrQubits) shots simulator).1 = counts)
    (hmap : (counts.map Prod.fst).Nodup)
    (hsum : (counts.map Prod.snd).sum = shots) :
    (∃ buffer : List Nat,
      (SampleCounts backend (some simulator) (some qubits) nrQubits shots).ret
        = some buffer ∧
      (SampleCounts backend (some simulator) (some qubits) nrQubits shots).trace
        = [SimulatorOp.sampleCounts (qubits.take nrQubits) shots] ∧
      buffer.length = 2 * counts.length ∧
      (∀ (i : Nat) (h : i < counts.length),
        buffer[2 * i]? = some counts[i].1 ∧ buffer[2 * i + 1]? = some counts[i].2) ∧
      (∀ outcome ∈ counts.map Prod.fst,
        ∃! i : Nat, i < counts.length ∧ buffer[2 * i]? = some outcome) ∧
      ((List.range counts.length).map (fun i => buffer[2 * i + 1]?.getD 0)).sum = shots) ∧
    (∀ (sim : Option S) (array : Option (List Nat)) (n m : Nat),
      (sim = none ∨ array = none ∨ n = 0 ∨ m = 0) →
      SampleCounts backend sim array n m = ⟨none, sim, []⟩) := by
  refine ⟨⟨fillCounts counts, ?_, ?_, fillCounts_length counts, ?_, ?_, ?_⟩, ?_⟩
  · simp [SampleCounts, hn, hs, qubitVector, hcounts]
  · simp [SampleCounts, hn, hs, qubitVector]
  · intro i h
    rw [fillCounts_even, fillCounts_odd, List.getElem?_eq_getElem h]
    exact ⟨rfl, rfl⟩
  · intro outcome hmem
    obtain ⟨i, hi, hval⟩ := List.getElem_of_mem hmem
    have hi2 : i < counts.length := by simpa using hi
    refine ⟨i, ⟨hi2, ?_⟩, ?_⟩
    · rw [fillCounts_even, List.getElem?_eq_getElem hi2]
      simpa using hval
    · rintro j ⟨hj, hjval⟩
      rw [fillCounts_even, List.getElem?_eq_getElem hj] at hjval
      have hj2 : j < (counts.map Prod.fst).length := by simpa using hj
      have e1 : (counts.map Prod.fst)[j] = outcome := by simpa using hjval
      exact (hmap.getElem_inj_iff).mp (e1.trans hval.symm)
  · rw [fillCounts_odd_sum, hsum]
  · intro sim array n m h
    exact SampleCounts_null backend sim array n m h

/-- C10, evaluated: seven shots on the example backend, outcomes 0 (three
times) and 3 (four times); the buffer is `[0, 3, 3, 4]`. -/
theorem SampleCounts_buffer_witness :
    ((2 : Nat) ≠ 0 ∧ (7 : Nat) ≠ 0 ∧
      (demoSimulator.SampleCounts ([0, 1].take 2) 7 ⟨2⟩).1 = [(0, 3), (3, 4)] ∧
      (([(0, 3), (3, 4)] : List (Nat × Nat)).map Prod.fst).Nodup ∧
      (([(0, 3), (3, 4)] : List (Nat × Nat)).map Prod.snd).sum = 7) ∧
    ((∃ buffer : List Nat,
      (SampleCounts demoSimulator (some ⟨2⟩) (some [0, 1]) 2 7).ret = some buffer ∧
      (SampleCounts demoSimulator (some ⟨2⟩) (some [0, 1]) 2 7).trace
        = [SimulatorOp.sampleCounts ([0, 1].take 2) 7] ∧
      buffer.length = 2 * [(0, 3), (3, 4)].length ∧
      (∀ (i : Nat) (h : i < [(0, 3), (3, 4)].length),
        buffer[2 * i]? = some ([(0, 3), (3, 4)].get ⟨i, h⟩).1 ∧
        buffer[2 * i + 1]? = some ([(0, 3), (3, 4)].get ⟨i, h⟩).2) ∧
      (∀ outcome ∈ [(0, 3), (3, 4)].map Prod.fst,
        ∃! i : Nat, i < [(0, 3), (3, 4)].length ∧ buffer[2 * i]? = some outcome) ∧
      ((List.range [(0, 3), (3, 4)].length).map
        (fun i => buffer[2 * i + 1]?.getD 0)).sum = 7) ∧
    (∀ (sim : Option DemoSimulator) (array : Option (List Nat)) (n m : Nat),
      (sim = none ∨ array = none ∨ n = 0 ∨ m = 0) →
      SampleCounts demoSimulator sim array n m = ⟨none, sim, []⟩)) ∧
    (SampleCounts demoSimulator (some ⟨2⟩) (some [0, 1]) 2 7).ret = some [0, 3, 3, 4] :=
  ⟨⟨by decide, by decide, by rfl, by decide, by rfl⟩,
    SampleCounts_buffer demoSimulator ⟨2⟩ [0, 1] 2 7 [(0, 3), (3, 4)]
      (by decide) (by decide) (by rfl) (by decide) (by rfl),
    by rfl⟩

/-! ## C11: null references, zero handles, no library instance -/

theorem SimpleExecute_zero_handle {N C : Type} (json : JsonServices C)
    (net : INetwork N C) (maestroInstance : Option (Maestro N))
    (jsonCircuit jsonConfig : Option String) :
    SimpleExecute json net maestroInstance 0 jsonCircuit jsonConfig
      = ⟨[], none, .ok none⟩ := by
  cases maestroInstance <;> cases jsonCircuit <;> cases jsonConfig <;>
    simp [SimpleExecute]

theorem SimpleExecute_no_instance {N C : Type} (json : JsonServices C)
    (net : INetwork N C) (simpleSim : Nat) (jsonCircuit jsonConfig : Option String) :
    SimpleExecute json net none simpleSim jsonCircuit jsonConfig
      = ⟨[], none, .ok none⟩ := by
  simp [SimpleExecute]

theorem forward_of_reference {S : Type} (backend : ISimulatorMethods S)
    (simulator : S) (method : SimulatorMethod) :
    forward backend (some simulator) method
      = ⟨1, some (backend.perform method simulator), [method]⟩ := rfl

/-- C11: every mutating boundary call returns its sentinel (0, null, or
nothing for a `void` call) and makes no call on a simulator or on the library
object when its simulator reference is null, when its handle is 0, or (for
the handle calls) when `maestroInstance` is null.  A call with a null
reference leaves no simulator state behind it, and a handle call leaves the
library object as it was. -/
theorem null_inputs_are_no_ops {S M N C : Type} (backend : ISimulatorMethods S)
    (lib : MaestroMethods M) (json : JsonServices C) (net : INetwork N C) :
    ((∀ q, ApplyX backend none q = ⟨0, none, []⟩) ∧
      (∀ q, ApplyY backend none q = ⟨0, none, []⟩) ∧
      (∀ q, ApplyZ backend none q = ⟨0, none, []⟩) ∧
      (∀ q, ApplyH backend none q = ⟨0, none, []⟩) ∧
      (∀ q, ApplyS backend none q = ⟨0, none, []⟩) ∧
      (∀ q, ApplySDG backend none q = ⟨0, none, []⟩) ∧
      (∀ q, ApplyT backend none q = ⟨0, none, []⟩) ∧
      (∀ q, ApplyTDG backend none q = ⟨0, none, []⟩) ∧
      (∀ q, ApplySX backend none q = ⟨0, none, []⟩) ∧
      (∀ q, ApplySXDG backend none q = ⟨0, none, []⟩) ∧
      (∀ q, ApplyK backend none q = ⟨0, none, []⟩) ∧
      (∀ q t, ApplyP backend none q t = ⟨0, none, []⟩) ∧
      (∀ q t, ApplyRx backend none q t = ⟨0, none, []⟩) ∧
      (∀ q t, ApplyRy backend none q t = ⟨0, none, []⟩) ∧
      (∀ q t, ApplyRz backend none q t = ⟨0, none, []⟩) ∧
      (∀ q t p l g, ApplyU backend none q t p l g = ⟨0, none, []⟩)) ∧
    ((∀ c t, ApplyCX backend none c t = ⟨0, none, []⟩) ∧
      (∀ c t, ApplyCY backend none c t = ⟨0, none, []⟩) ∧
      (∀ c t, ApplyCZ backend none c t = ⟨0, none, []⟩) ∧
      (∀ c t, ApplyCH backend none c t = ⟨0, none, []⟩) ∧
      (∀ c t, ApplyCSX backend none c t = ⟨0, none, []⟩) ∧
      (∀ c t, ApplyCSXDG backend none c t = ⟨0, none, []⟩) ∧
      (∀ c t a, ApplyCP backend none c t a = ⟨0, none, []⟩) ∧
      (∀ c t a, ApplyCRx backend none c t a = ⟨0, none, []⟩) ∧
      (∀ c t a, ApplyCRy backend none c t a = ⟨0, none, []⟩) ∧
      (∀ c t a, ApplyCRz backend none c t a = ⟨0, none, []⟩) ∧
      (∀ c d t, ApplyCCX backend none c d t = ⟨0, none, []⟩) ∧
      (∀ a b, ApplySwap backend none a b = ⟨0, none, []⟩) ∧
      (∀ c a b, ApplyCSwap backend none c a b = ⟨0, none, []⟩) ∧
      (∀ c t a p l g, ApplyCU backend none c t a p l g = ⟨0, none, []⟩)) ∧
    (InitializeSimulator backend none = ⟨0, none, []⟩ ∧
      ResetSimulator backend none = ⟨0, none, []⟩ ∧
      (∀ key value, ConfigureSimulator backend none key value = ⟨0, none, []⟩) ∧
      ClearSimulator backend none = ⟨0, none, []⟩ ∧
      FlushSimulator backend none = ⟨0, none, []⟩ ∧
      SaveStateToInternalDestructive backend none = ⟨0, none, []⟩ ∧
      RestoreInternalDestructiveSavedState backend none = ⟨0, none, []⟩ ∧
      SaveState backend none = ⟨0, none, []⟩ ∧
      RestoreState backend none = ⟨0, none, []⟩ ∧
      (∀ m, SetMultithreading backend none m = ⟨0, none, []⟩) ∧
      (∀ n, AllocateQubits backend.toISimulator none n = ⟨0, none, []⟩) ∧
      (∀ qubits n, Measure backend.toISimulator none qubits n = ⟨0, none, []⟩) ∧
      (∀ qubits n, ApplyReset backend none qubits n = ⟨0, none, []⟩)) ∧
    ((∀ t e, CreateSimulator lib none t e = ⟨0, none, []⟩) ∧
      (∀ n, CreateSimpleSimulator lib none n = ⟨0, none, []⟩) ∧
      (∀ h, DestroySimulator lib none h = ⟨(), none, []⟩) ∧
      (∀ maestro, DestroySimulator lib (some maestro) 0 = ⟨(), some maestro, []⟩) ∧
      (∀ h, DestroySimpleSimulator lib none h = ⟨(), none, []⟩) ∧
      (∀ maestro,
        DestroySimpleSimulator lib (some maestro) 0 = ⟨(), some maestro, []⟩) ∧
      (∀ h t e, AddOptimizationSimulator lib none h t e = ⟨0, none, []⟩) ∧
      (∀ maestro t e,
        AddOptimizationSimulator lib (some maestro) 0 t e = ⟨0, some maestro, []⟩) ∧
      (∀ h t e, RemoveAllOptimizationSimulatorsAndAdd lib none h t e = ⟨0, none, []⟩) ∧
      (∀ maestro t e,
        RemoveAllOptimizationSimulatorsAndAdd lib (some maestro) 0 t e
          = ⟨0, some maestro, []⟩) ∧
      (∀ h circuit config,
        SimpleExecute json net none h circuit config = ⟨[], none, .ok none⟩) ∧
      (∀ library circuit config,
        SimpleExecute json net library 0 circuit config = ⟨[], none, .ok none⟩)) := by
  refine ⟨?_, ?_, ?_, ?_⟩
  · refine ⟨?_, ?_, ?_, ?_, ?_, ?_, ?_, ?_, ?_, ?_, ?_, ?_, ?_, ?_, ?_, ?_⟩ <;>
      intros <;> rfl
  · refine ⟨?_, ?_, ?_, ?_, ?_, ?_, ?_, ?_, ?_, ?_, ?_, ?_, ?_, ?_⟩ <;>
      intros <;> rfl
  · refine ⟨rfl, rfl, ?_, rfl, rfl, rfl, rfl, rfl, rfl, ?_, ?_, ?_, ?_⟩
    · intro key value
      cases key <;> cases value <;> rfl
    · intro m
      rfl
    · intro n
      rfl
    · intro qubits n
      cases qubits <;> rfl
    · intro qubits n
      cases qubits <;> rfl
  · refine ⟨?_, ?_, ?_, ?_, ?_, ?_, ?_, ?_, ?_, ?_, ?_, ?_⟩
    · intros; rfl
    · intros; rfl
    · intros; rfl
    · intros; rfl
    · intros; rfl
    · intros; rfl
    · intros; rfl
    · intros; rfl
    · intros; rfl
    · intros; rfl
    · intro h circuit config
      exact SimpleExecute_no_instance json net h circuit config
    · intro inst circuit config
      exact SimpleExecute_zero_handle json net inst circuit config

/-! ## C14: returned strings -/

theorem copyToBuffer_length (v : String) :
    (copyToBuffer v).length = v.length + 1 := by
  unfold copyToBuffer
  rw [List.length_append]
  rfl

theorem copyToBuffer_prefix (v : String) (i : Nat) (h : i < v.length) :
    (copyToBuffer v)[i]? = v.data[i]? := by
  have h2 : i < v.data.length := h
  unfold copyToBuffer
  exact List.getElem?_append_left h2

theorem copyToBuffer_terminator (v : String) :
    (copyToBuffer v)[v.length]? = some (Char.ofNat 0) := by
  have h : v.length = v.data.length := rfl
  rw [h]
  unfold copyToBuffer
  rw [List.getElem?_append_right (Nat.le_refl _), Nat.sub_self]
  rfl

theorem GetConfiguration_null_iff {S : Type} (backend : ISimulatorMethods S)
    (sim : Option S) (key : Option String) :
    GetConfiguration backend sim key = none ↔
      (sim = none ∨ key = none ∨
        ∃ simulator k, sim = some simulator ∧ key = some k ∧
          backend.GetConfiguration k simulator = "") := by
  cases sim with
  | none => simp [GetConfiguration]
  | some simulator =>
    cases key with
    | none => simp [GetConfiguration]
    | some k =>
      by_cases hv : backend.GetConfiguration k simulator = "" <;>
        simp [GetConfiguration, hv]

/-- C14: the buffer built for a source string `v` of length `n` has `n + 1`
entries, entries `0 .. n - 1` are the characters of `v` and entry `n` is NUL.
`SimpleExecute`, on a live handle, returns that buffer for the serialized
response; `GetConfiguration` returns it for the backend's value of the key
when `sim` and `key` are non-null and the value is not empty, and returns null
exactly when `sim` is null, `key` is null or the value is empty. -/
theorem returned_strings_are_copies {N C S : Type} (json : JsonServices C)
    (net : INetwork N C) (maestro : Maestro N) (simpleSim : Nat)
    (circuitText configText : String) (n0 : N) (shots : Nat)
    (backend : ISimulatorMethods S)
    (hhandle : simpleSim ≠ 0)
    (hlive : maestro.GetSimpleSimulator simpleSim = some n0)
    (hshots : getNrShots (json.ParseString configText) = .ok shots) :
    (∀ v : String,
      (copyToBuffer v).length = v.length + 1 ∧
      (∀ i, i < v.length → (copyToBuffer v)[i]? = v.data[i]?) ∧
      (copyToBuffer v)[v.length]? = some (Char.ofNat 0)) ∧
    (SimpleExecute json net (some maestro) simpleSim (some circuitText)
        (some configText)).result
      = .ok (some (copyToBuffer (json.serialize (buildResponse
          (executeOnHost json net (json.ParseString configText)
            (json.ParseCircuit circuitText) shots n0).1)))) ∧
    (∀ (simulator : S) (key : String), backend.GetConfiguration key simulator ≠ "" →
      GetConfiguration backend (some simulator) (some key)
        = some (copyToBuffer (backend.GetConfiguration key simulator))) ∧
    (∀ (sim : Option S) (key : Option String),
      GetConfiguration backend sim key = none ↔
        (sim = none ∨ key = none ∨
          ∃ simulator k, sim = some simulator ∧ key = some k ∧
            backend.GetConfiguration k simulator = "")) := by
  refine ⟨?_, ?_, ?_, ?_⟩
  · intro v
    exact ⟨copyToBuffer_length v, copyToBuffer_prefix v, copyToBuffer_terminator v⟩
  · rw [SimpleExecute_live json net maestro simpleSim circuitText configText n0 shots
      hhandle hlive hshots]
  · intro simulator key hv
    simp [GetConfiguration, hv]
  · intro sim key
    exact GetConfiguration_null_iff backend sim key

/-- C14, evaluated: handle 1 of the example registry with five shots, and the
option `method` of the example backend. -/
theorem returned_strings_are_copies_witness :
    ((1 : Nat) ≠ 0 ∧
      (demoMaestro ⟨false, 0, []⟩).GetSimpleSimulator 1 = some ⟨false, 0, []⟩ ∧
      getNrShots (demoJson.ParseString configFiveShots) = .ok 5) ∧
    ((∀ v : String,
      (copyToBuffer v).length = v.length + 1 ∧
      (∀ i, i < v.length → (copyToBuffer v)[i]? = v.data[i]?) ∧
      (copyToBuffer v)[v.length]? = some (Char.ofNat 0)) ∧
    (SimpleExecute demoJson demoNetwork (some (demoMaestro ⟨false, 0, []⟩)) 1
        (some demoCircuit) (some configFiveShots)).result
      = .ok (some (copyToBuffer (demoJson.serialize (buildResponse
          (executeOnHost demoJson demoNetwork (demoJson.ParseString configFiveShots)
            (demoJson.ParseCircuit demoCircuit) 5 ⟨false, 0, []⟩).1)))) ∧
    (∀ (simulator : DemoSimulator) (key : String),
      demoSimulatorMethods.GetConfiguration key simulator ≠ "" →
      GetConfiguration demoSimulatorMethods (some simulator) (some key)
        = some (copyToBuffer (demoSimulatorMethods.GetConfiguration key simulator))) ∧
    (∀ (sim : Option DemoSimulator) (key : Option String),
      GetConfiguration demoSimulatorMethods sim key = none ↔
        (sim = none ∨ key = none ∨
          ∃ simulator k, sim = some simulator ∧ key = some k ∧
            demoSimulatorMethods.GetConfiguration k simulator = ""))) ∧
    GetConfiguration demoSimulatorMethods (some ⟨2⟩) (some "method")
      = some ['s', 't', 'a', 't', 'e', 'v', 'e', 'c', 't', 'o', 'r', Char.ofNat 0] ∧
    GetConfiguration demoSimulatorMethods (some ⟨2⟩) (some "seed") = none :=
  ⟨⟨by decide, by rfl, by rfl⟩,
    returned_strings_are_copies demoJson demoNetwork (demoMaestro ⟨false, 0, []⟩) 1
      demoCircuit configFiveShots ⟨false, 0, []⟩ 5 demoSimulatorMethods
      (by decide) (by rfl) (by rfl),
    by rfl, by rfl⟩

/-! ## C15: `GetMaestroObject` runs its initialisation once -/

theorem GetMaestroObjectCalls_initialized {P : Type} (build : Build) (p : P)
    (later : List P) :
    GetMaestroObjectCalls build later ⟨true, some p⟩
      = List.replicate later.length ⟨some p, ⟨true, some p⟩, []⟩ := by
  induction later with
  | nil => rfl
  | cons fresh rest ih =>
    simp only [GetMaestroObjectCalls, GetMaestroObject, List.length_cons,
      List.replicate_succ]
    simpa using ih

/-- C15: in a sequence of calls of `GetMaestroObject` that starts from the
statics as initialised, the first call runs the initialisation (the library
initialisers that are compiled in, then one construction) and returns the
pointer to the constructed object; every later call returns that same pointer,
runs no initialisation step and constructs nothing, and leaves the statics as
they are. -/
theorem GetMaestroObject_initialises_once {P : Type} (build : Build) (first : P)
    (later : List P) :
    GetMaestroObjectCalls build (first :: later) Globals.initial
      = ⟨some first, ⟨true, some first⟩,
          (if build.linux then [InitOp.InitGpuLibrary] else [])
            ++ (if build.composer then [InitOp.InitializeRegressors] else [])
            ++ [InitOp.makeMaestro]⟩
        :: List.replicate later.length ⟨some first, ⟨true, some first⟩, []⟩ := by
  have h := GetMaestroObjectCalls_initialized build first later
  simp only [GetMaestroObjectCalls, GetMaestroObject, Globals.initial]
  simpa using h

/-! ## C12: the index translations are inverse to each other -/

namespace PartitionMap

theorem mem_of_isComputed (pm : PartitionMap) (h : pm.isComputed) (q : Nat)
    (hq : q < pm.numQubits) : q ∈ pm.qubitsMap := by
  have hsub : pm.qubitsMap.toFinset ⊆ Finset.range pm.numQubits := by
    intro p hp
    rw [List.mem_toFinset] at hp
    exact Finset.mem_range.mpr (h.2 p hp)
  have hcard : (Finset.range pm.numQubits).card ≤ pm.qubitsMap.toFinset.card := by
    rw [List.toFinset_card_of_nodup h.1, Finset.card_range]
    exact Nat.le_refl _
  have heq := Finset.eq_of_subset_of_card_le hsub hcard
  have hmem : q ∈ pm.qubitsMap.toFinset := by
    rw [heq]
    exact Finset.mem_range.mpr hq
  exact List.mem_toFinset.mp hmem

theorem fromOriginal_eq (pm : PartitionMap) (q : Nat) (hq : q < pm.numQubits) :
    pm.TranslateQubitFromOriginal q = pm.qubitsMap.get ⟨q, hq⟩ := by
  unfold TranslateQubitFromOriginal GetQubitsMap
  rw [List.getD_eq_getElem _ _ hq]
  rfl

theorem toOriginal_eq (pm : PartitionMap) (p : Nat) (hp : p < pm.numQubits) :
    pm.TranslateQubitToOriginal p = pm.qubitsMap.indexOf p := by
  unfold TranslateQubitToOriginal GetReverseQubitsMap
  rw [List.getD_eq_getElem _ _ (by simpa using hp)]
  simp

theorem fromOriginal_lt (pm : PartitionMap) (h : pm.isComputed) (q : Nat)
    (hq : q < pm.numQubits) : pm.TranslateQubitFromOriginal q < pm.numQubits := by
  rw [fromOriginal_eq pm q hq]
  exact h.2 _ (List.get_mem _ _ _)

theorem toOriginal_lt (pm : PartitionMap) (h : pm.isComputed) (p : Nat)
    (hp : p < pm.numQubits) : pm.TranslateQubitToOriginal p < pm.numQubits := by
  rw [toOriginal_eq pm p hp]
  exact List.indexOf_lt_length.mpr (mem_of_isComputed pm h p hp)

theorem from_to (pm : PartitionMap) (h : pm.isComputed) (p : Nat)
    (hp : p < pm.numQubits) :
    pm.TranslateQubitFromOriginal (pm.TranslateQubitToOriginal p) = p := by
  have hlt := toOriginal_lt pm h p hp
  rw [fromOriginal_eq pm _ hlt]
  simp only [toOriginal_eq pm p hp]
  exact List.indexOf_get _

theorem to_from (pm : PartitionMap) (h : pm.isComputed) (q : Nat)
    (hq : q < pm.numQubits) :
    pm.TranslateQubitToOriginal (pm.TranslateQubitFromOriginal q) = q := by
  have hlt := fromOriginal_lt pm h q hq
  rw [toOriginal_eq pm _ hlt, fromOriginal_eq pm q hq]
  exact List.get_indexOf h.1 ⟨q, hq⟩

theorem assembleBits_lt (bit : Nat → Bool) (n : Nat) : assembleBits bit n < 2 ^ n := by
  induction n with
  | zero => simp [assembleBits]
  | succ n ih =>
    unfold assembleBits
    have hp : 2 ^ (n + 1) = 2 ^ n + 2 ^ n := by rw [Nat.pow_succ]; omega
    split <;> omega

theorem testBit_assembleBits (bit : Nat → Bool) (n i : Nat) :
    (assembleBits bit n).testBit i = (decide (i < n) && bit i) := by
  induction n with
  | zero => simp [assembleBits]
  | succ n ih =>
    unfold assembleBits
    have hlt := assembleBits_lt bit n
    by_cases hb : bit n = true
    · rw [if_pos hb, Nat.add_comm]
      rcases Nat.lt_trichotomy i n with hi | hi | hi
      · rw [Nat.testBit_two_pow_add_gt hi, ih]
        simp [hi, Nat.lt_succ_of_lt hi]
      · subst hi
        rw [Nat.testBit_two_pow_add_eq, Nat.testBit_lt_two_pow hlt]
        simp [hb]
      · have hbig : 2 ^ n + assembleBits bit n < 2 ^ i := by
          have h1 : 2 ^ (n + 1) ≤ 2 ^ i := Nat.pow_le_pow_right (by decide) hi
          have h2 : 2 ^ (n + 1) = 2 ^ n + 2 ^ n := by rw [Nat.pow_succ]; omega
          omega
        rw [Nat.testBit_lt_two_pow hbig]
        have h3 : ¬ i < n + 1 := by omega
        simp [h3]
    · rw [if_neg hb, Nat.add_zero, ih]
      have hf : bit n = false := by simpa using hb
      by_cases hi : i < n
      · simp [hi, Nat.lt_succ_of_lt hi]
      · by_cases he : i = n
        · subst he
          simp [hf]
        · have h3 : ¬ i < n + 1 := by omega
          simp [hi, h3]

theorem assembleBits_roundtrip (n : Nat) (f g : Nat → Nat) (state : Nat)
    (hstate : state < 2 ^ n) (hg : ∀ i, i < n → g i < n)
    (hfg : ∀ i, i < n → f (g i) = i) :
    assembleBits (fun i => (assembleBits (fun j => state.testBit (f j)) n).testBit (g i)) n
      = state := by
  apply Nat.eq_of_testBit_eq
  intro i
  rw [testBit_assembleBits]
  by_cases hi : i < n
  · simp only [hi, decide_True, Bool.true_and]
    rw [testBit_assembleBits]
    simp [hg i hi, hfg i hi]
  · have hge : n ≤ i := Nat.le_of_not_lt hi
    have hs : state < 2 ^ i := Nat.lt_of_lt_of_le hstate (Nat.pow_le_pow_right (by decide) hge)
    simp [hi, Nat.testBit_lt_two_pow hs]

end PartitionMap

/-- C12: for a computed partition map over `n` qubits, the two qubit
translations are inverse to each other on the qubit indices below `n`, and the
two state translations are inverse to each other on the composite state
indices below `2 ^ n`. -/
theorem translations_are_inverses (pm : PartitionMap) (h : pm.isComputed) :
    (∀ q, q < pm.numQubits →
      pm.TranslateQubitFromOriginal (pm.TranslateQubitToOriginal q) = q ∧
      pm.TranslateQubitToOriginal (pm.TranslateQubitFromOriginal q) = q) ∧
    (∀ s, s < 2 ^ pm.numQubits →
      pm.TranslateStateFromOriginal (pm.TranslateStateToOriginal s) = s ∧
      pm.TranslateStateToOriginal (pm.TranslateStateFromOriginal s) = s) := by
  constructor
  · intro q hq
    exact ⟨PartitionMap.from_to pm h q hq, PartitionMap.to_from pm h q hq⟩
  · intro s hs
    constructor
    · exact PartitionMap.assembleBits_roundtrip pm.numQubits
        pm.TranslateQubitFromOriginal pm.TranslateQubitToOriginal s hs
        (PartitionMap.toOriginal_lt pm h) (PartitionMap.from_to pm h)
    · exact PartitionMap.assembleBits_roundtrip pm.numQubits
        pm.TranslateQubitToOriginal pm.TranslateQubitFromOriginal s hs
        (PartitionMap.fromOriginal_lt pm h) (PartitionMap.to_from pm h)

/-- C12, evaluated on the map that sends the original qubits 0, 1, 2 to the
partition-local qubits 2, 0, 1: qubit 0 and state 6 (binary 110). -/
theorem translations_are_inverses_witness :
    (PartitionMap.mk [2, 0, 1]).isComputed ∧
    ((∀ q, q < (PartitionMap.mk [2, 0, 1]).numQubits →
      (PartitionMap.mk [2, 0, 1]).TranslateQubitFromOriginal
        ((PartitionMap.mk [2, 0, 1]).TranslateQubitToOriginal q) = q ∧
      (PartitionMap.mk [2, 0, 1]).TranslateQubitToOriginal
        ((PartitionMap.mk [2, 0, 1]).TranslateQubitFromOriginal q) = q) ∧
    (∀ s, s < 2 ^ (PartitionMap.mk [2, 0, 1]).numQubits →
      (PartitionMap.mk [2, 0, 1]).TranslateStateFromOriginal
        ((PartitionMap.mk [2, 0, 1]).TranslateStateToOriginal s) = s ∧
      (PartitionMap.mk [2, 0, 1]).TranslateStateToOriginal
        ((PartitionMap.mk [2, 0, 1]).TranslateStateFromOriginal s) = s)) ∧
    (PartitionMap.mk [2, 0, 1]).TranslateQubitFromOriginal 0 = 2 ∧
    (PartitionMap.mk [2, 0, 1]).TranslateQubitToOriginal 2 = 0 ∧
    (PartitionMap.mk [2, 0, 1]).TranslateStateFromOriginal 6 = 3 ∧
    (PartitionMap.mk [2, 0, 1]).TranslateStateToOriginal 3 = 6 :=
  ⟨by decide, translations_are_inverses (PartitionMap.mk [2, 0, 1]) (by decide),
    by decide, by decide, by decide, by decide⟩

/-! ## C13: the cap on created backend instances -/

theorem attemptCandidates_created (constructs : Candidate → Bool)
    (candidates : List Candidate) (remaining : Nat) :
    createdInstances (attemptCandidates constructs candidates remaining).trace
        = (attemptCandidates constructs candidates remaining).counts ∧
      (attemptCandidates constructs candidates remaining).counts ≤ remaining ∧
      (attemptCandidates constructs candidates remaining).counts ≤ candidates.length := by
  induction candidates generalizing remaining with
  | nil => simp [attemptCandidates, createdInstances]
  | cons candidate rest ih =>
    cases remaining with
    | zero => simp [attemptCandidates, createdInstances]
    | succ k =>
      obtain ⟨h1, h2, h3⟩ := ih k
      by_cases hc : constructs candidate = true
      · simp [attemptCandidates, hc, createdInstances]
      · simp only [attemptCandidates, hc, createdInstances] at h1 ⊢
        simp only [Bool.false_eq_true, if_false, List.filter_cons, List.length_cons]
        simp only [if_true, List.length_cons]
        refine ⟨?_, ?_, ?_⟩
        · rw [h1]
        · omega
        · omega

/-- C13: for every estimate, every outcome of the instantiations, every
candidate list and every cap, `ChooseBestSimulator` creates as many backend
instances as it makes attempts, and that number is at most `maxSimulators`
(and at most the number of candidates). -/
theorem ChooseBestSimulator_respects_cap (estimate : Candidate → Nat)
    (constructs : Candidate → Bool) (simulatorTypes : List Candidate)
    (maxSimulators : Nat) :
    createdInstances
        (ChooseBestSimulator estimate constructs simulatorTypes maxSimulators).trace
      ≤ maxSimulators ∧
    createdInstances
        (ChooseBestSimulator estimate constructs simulatorTypes maxSimulators).trace
      = (ChooseBestSimulator estimate constructs simulatorTypes maxSimulators).counts ∧
    (ChooseBestSimulator estimate constructs simulatorTypes maxSimulators).counts
      ≤ simulatorTypes.length := by
  obtain ⟨h1, h2, h3⟩ := attemptCandidates_created constructs
    (sortCandidates estimate simulatorTypes) maxSimulators
  refine ⟨?_, h1, ?_⟩
  · unfold ChooseBestSimulator
    omega
  · unfold ChooseBestSimulator
    have hl : (sortCandidates estimate simulatorTypes).length = simulatorTypes.length := by
      unfold sortCandidates
      exact List.length_insertionSort _ _
    omega

theorem ChooseBestSimulator_scenario :
    ChooseBestSimulator (fun c => if c.simType = 0 then 50 else 10)
        (fun c => decide (c.simType = 0)) [⟨0, 0⟩, ⟨1, 1⟩] 1
      = ⟨none, 1, [⟨1, 1⟩], [SelectorOp.create ⟨1, 1⟩, SelectorOp.destroy ⟨1, 1⟩]⟩ ∧
    ChooseBestSimulator (fun c => if c.simType = 0 then 50 else 10)
        (fun c => decide (c.simType = 0)) [⟨0, 0⟩, ⟨1, 1⟩] 2
      = ⟨some ⟨0, 0⟩, 2, [⟨1, 1⟩, ⟨0, 0⟩],
          [SelectorOp.create ⟨1, 1⟩, SelectorOp.destroy ⟨1, 1⟩,
            SelectorOp.create ⟨0, 0⟩, SelectorOp.configure ⟨0, 0⟩]⟩ := by
  constructor <;> decide

end MaestroLib
